import Mathlib

/-!
Blockchain security door: the challenge-response access controller.

A shallow embedding of `esp32Boiler/examples/security_door/blockchain_door.cpp`.

* Arduino `String` / `std::string` values are Lean strings; a character stands for one byte
  of the (NUL-free, ASCII-spelled) C string.
* The sketch's globals (`currentChallenge`, `challengeTime`) and the three output pins are
  fields of `State`. Every externally visible action (pin writes, blocking delays, HTTP
  responses, serial log lines, the two calls into the blockchain library) is appended to the
  trace `State.out`, in program order.
* `millis()` is the state's clock reduced modulo `2^32` (`unsigned long` on the ESP32);
  `delay(ms)` advances the clock.
* The blockchain library is a black box: signature recovery and the `balanceOf` view call are
  arbitrary functions returning a value or raising (`Except`), collected in `Env`.
* `try { ... } catch (const std::exception& e)` is a `match` on the `Except` result.
-/

namespace BlockchainDoor

/-! ## Data model -/

/-- The three output pins of the sketch (`#define DOOR_RELAY_PIN 2` etc.). -/
inductive Pin
  | DOOR_RELAY_PIN
  | STATUS_LED_PIN
  | BUZZER_PIN
  deriving DecidableEq, Repr

/-- Digital output levels. -/
inductive Level
  | LOW
  | HIGH
  deriving DecidableEq, Repr

/-- Externally visible actions, recorded in program order. -/
inductive Event
  /-- Pin write `digitalWrite(pin, v)` -/
  | digitalWrite (pin : Pin) (v : Level)
  /-- Blocking wait `delay(ms)` -/
  | delay (ms : Nat)
  /-- HTTP response `server.send(code, contentType, body)` -/
  | send (code : Nat) (contentType : String) (body : String)
  /-- Log text `Serial.print(text)` -/
  | print (text : String)
  /-- Log line `Serial.println(text)` -/
  | println (text : String)
  /-- A call `Crypto::ECRecoverFromPersonalMessage(&sig, &msg)` -/
  | ecRecover (sig : String) (msg : String)
  /-- A `balanceOf(address)` view call against `contract` for `user` -/
  | viewCall (contract : String) (user : String)
  deriving DecidableEq, Repr

/-- The sketch's mutable globals, the output pins, the clock and the output trace. -/
structure State where
  /-- Global `String currentChallenge` -/
  currentChallenge : String
  /-- Global `unsigned long challengeTime` -/
  challengeTime : Nat
  /-- Milliseconds since boot (unbounded); `millis()` reads it modulo `2^32`. -/
  clock : Nat
  /-- Level last written to `DOOR_RELAY_PIN` -/
  relay : Level
  /-- Level last written to `STATUS_LED_PIN` -/
  led : Level
  /-- Level last written to `BUZZER_PIN` -/
  buzzer : Level
  /-- Everything emitted so far, oldest first. -/
  out : List Event
  deriving DecidableEq, Repr

/-- The collaborators and configuration the sketch is compiled and linked against. -/
structure Env where
  /-- Configuration macro `#define DOOR_CONTRACT "..."` -/
  DOOR_CONTRACT : String
  /-- Library call `Crypto::ECRecoverFromPersonalMessage(&sig, &msg)`: the recovered address, or the
  `what()` of the exception it raised. -/
  ECRecoverFromPersonalMessage : String → String → Except String String
  /-- The library calls of `checkAccessToken` against `contract` (the `Contract` constructor,
  `SetupContractData("balanceOf(address)", &user)`, `ViewCall`, `getUint256`): the decoded
  `uint256_t` balance, or the `what()` of the exception one of them raised. -/
  balanceOf : String → String → Except String Nat

/-- The two raw values the random source hands to one `updateChallenge`. -/
structure Rng where
  /-- Raw value behind `random(0, 8)` -/
  word : Nat
  /-- Raw value behind `random(10000, 99999)` -/
  number : Nat
  deriving DecidableEq, Repr

/-- Constant `const unsigned long CHALLENGE_TIMEOUT = 300000; // 5 minutes` -/
def CHALLENGE_TIMEOUT : Nat := 300000

/-- Number of values of an `unsigned long` on the ESP32. -/
def ULONG : Nat := 2 ^ 32

/-- The shipped `#define DOOR_CONTRACT`. -/
def DOOR_CONTRACT_default : String := "0x0000000000000000000000000000000000000000"

/-! ## Primitives of the Arduino core -/

/-- Append one event to the trace. -/
def emit (e : Event) (s : State) : State :=
  { s with out := s.out ++ [e] }

/-- Arduino `digitalWrite(pin, v)` -/
def digitalWrite (pin : Pin) (v : Level) (s : State) : State :=
  let s := emit (Event.digitalWrite pin v) s
  match pin with
  | Pin.DOOR_RELAY_PIN => { s with relay := v }
  | Pin.STATUS_LED_PIN => { s with led := v }
  | Pin.BUZZER_PIN => { s with buzzer := v }

/-- Arduino `digitalRead(pin)` of an output pin: the level last written. -/
def digitalRead (pin : Pin) (s : State) : Level :=
  match pin with
  | Pin.DOOR_RELAY_PIN => s.relay
  | Pin.STATUS_LED_PIN => s.led
  | Pin.BUZZER_PIN => s.buzzer

/-- Arduino `delay(ms)`: blocks, so the clock advances by `ms`. -/
def delay (ms : Nat) (s : State) : State :=
  emit (Event.delay ms) { s with clock := s.clock + ms }

/-- Arduino `millis()` -/
def millis (s : State) : Nat :=
  s.clock % ULONG

/-- Arduino `Serial.print(text)` -/
def Serial_print (text : String) (s : State) : State :=
  emit (Event.print text) s

/-- Arduino `Serial.println(text)` -/
def Serial_println (text : String) (s : State) : State :=
  emit (Event.println text) s

/-- Arduino `server.send(code, contentType, body)` -/
def server_send (code : Nat) (contentType : String) (body : String) (s : State) : State :=
  emit (Event.send code contentType body) s

/-- Subtraction of two `unsigned long` values: the difference modulo `2^32`. -/
def usub (a b : Nat) : Nat :=
  (a % ULONG + ULONG - b % ULONG) % ULONG

/-- Arduino `random(howsmall, howbig)` applied to a raw draw of the random source:
`howsmall + raw % (howbig - howsmall)`, a value in `[howsmall, howbig)`. -/
def random (howsmall howbig raw : Nat) : Nat :=
  if howsmall ≥ howbig then howsmall else howsmall + raw % (howbig - howsmall)

/-- The loop of `String::equalsIgnoreCase`: compare `tolower` of the characters until the
first string ends. -/
def equalsIgnoreCaseLoop : List Char → List Char → Bool
  | [], _ => true
  | _ :: _, [] => false
  | c1 :: p1, c2 :: p2 =>
    if c1.toLower != c2.toLower then false else equalsIgnoreCaseLoop p1 p2

/-- Arduino `a.equalsIgnoreCase(b)`: equal lengths, then the character loop. -/
def equalsIgnoreCase (a b : String) : Bool :=
  if a.length != b.length then false
  else if a.length == 0 then true
  else equalsIgnoreCaseLoop a.data b.data

/-! ## The sketch -/

/-- Source `String words[]` of `updateChallenge`. -/
def words : List String :=
  ["apple", "banana", "cherry", "dragon", "eagle", "falcon", "grape", "honey"]

/-- The text `words[randomWord] + " " + String(randomNumber)` built by `updateChallenge`. -/
def challengeText (r : Rng) : String :=
  let randomWord := random 0 8 r.word
  let randomNumber := random 10000 99999 r.number
  words.getD randomWord "" ++ " " ++ toString randomNumber

/-- Source `void updateChallenge()` -/
def updateChallenge (r : Rng) (s : State) : State :=
  let s := { s with currentChallenge := challengeText r }
  let s := { s with challengeTime := millis s }
  s |> Serial_print "New challenge: "
    |> Serial_println s.currentChallenge

/-- Source `void signalAccess(bool granted)` -/
def signalAccess (granted : Bool) (s : State) : State :=
  if granted then
    let body := fun (s : State) =>
      s |> digitalWrite Pin.BUZZER_PIN Level.HIGH
        |> digitalWrite Pin.STATUS_LED_PIN Level.HIGH
        |> delay 200
        |> digitalWrite Pin.BUZZER_PIN Level.LOW
        |> digitalWrite Pin.STATUS_LED_PIN Level.LOW
        |> delay 200
    s |> Nat.iterate body 2
      |> digitalWrite Pin.STATUS_LED_PIN Level.HIGH
  else
    let body := fun (s : State) =>
      s |> digitalWrite Pin.STATUS_LED_PIN Level.HIGH
        |> delay 100
        |> digitalWrite Pin.STATUS_LED_PIN Level.LOW
        |> delay 100
    s |> digitalWrite Pin.BUZZER_PIN Level.HIGH
      |> Nat.iterate body 5
      |> digitalWrite Pin.BUZZER_PIN Level.LOW
      |> digitalWrite Pin.STATUS_LED_PIN Level.HIGH

/-- Source `void openDoor()` -/
def openDoor (s : State) : State :=
  s |> Serial_println "Opening door..."
    |> digitalWrite Pin.DOOR_RELAY_PIN Level.HIGH
    |> delay 5000
    |> digitalWrite Pin.DOOR_RELAY_PIN Level.LOW
    |> Serial_println "Door closed"

/-- Source `void grantAccess(const String& userAddress)` -/
def grantAccess (userAddress : String) (s : State) : State :=
  s |> Serial_println "ACCESS GRANTED"
    |> Serial_print "User: "
    |> Serial_println userAddress
    |> signalAccess true
    |> openDoor

/-- Source `void denyAccess(const String& userAddress)` -/
def denyAccess (userAddress : String) (s : State) : State :=
  s |> Serial_println "ACCESS DENIED"
    |> Serial_print "User: "
    |> Serial_println userAddress
    |> signalAccess false

/-- Source `bool checkAccessToken(const string& userAddress)`: the returned flag and the state
after its log lines and ledger query. -/
def checkAccessToken (env : Env) (userAddress : String) (s : State) : Bool × State :=
  if env.DOOR_CONTRACT.length < 10 then
    (true, Serial_println "Warning: No door contract configured, allowing access" s)
  else
    let s := emit (Event.viewCall env.DOOR_CONTRACT userAddress) s
    match env.balanceOf env.DOOR_CONTRACT userAddress with
    | Except.ok balance =>
      let s := s |> Serial_print "User token balance: "
                 |> Serial_println (toString balance)
      (decide (balance > 0), s)
    | Except.error what =>
      let s := s |> Serial_print "Error checking access token: "
                 |> Serial_println what
      (false, s)

/-- Source `void handleGetChallenge()` -/
def handleGetChallenge (r : Rng) (s : State) : State :=
  let s := updateChallenge r s
  s |> server_send 200 "text/plain" s.currentChallenge
    |> Serial_print "Challenge generated: "
    |> Serial_println s.currentChallenge

/-- Source `void handleCheckSignature()`, with `signature = server.arg("sig")` and
`userAddress = server.arg("addr")` (empty when the parameter is missing). -/
def handleCheckSignature (env : Env) (r : Rng) (signature userAddress : String)
    (s : State) : State :=
  if signature.length == 0 then
    server_send 400 "text/plain" "Missing signature parameter" s
  else
    let s := s |> Serial_println "Checking signature..."
               |> Serial_print "Signature: "
               |> Serial_println signature
               |> Serial_print "User Address: "
               |> Serial_println userAddress
    let s := emit (Event.ecRecover signature s.currentChallenge) s
    match env.ECRecoverFromPersonalMessage signature s.currentChallenge with
    | Except.ok recoveredAddress =>
      let s := s |> Serial_print "Recovered address: "
                 |> Serial_println recoveredAddress
      if equalsIgnoreCase userAddress recoveredAddress then
        let s := Serial_println "Address verification passed" s
        let hasToken := checkAccessToken env recoveredAddress s
        if hasToken.1 then
          hasToken.2 |> server_send 200 "text/plain" "pass"
                     |> grantAccess userAddress
                     |> updateChallenge r
        else
          hasToken.2 |> server_send 200 "text/plain" "fail: no access token"
                     |> denyAccess userAddress
      else
        s |> server_send 200 "text/plain" "fail: signature verification failed"
          |> denyAccess userAddress
    | Except.error what =>
      s |> Serial_print "Error in signature verification: "
        |> Serial_println what
        |> server_send 500 "text/plain" "fail: verification error"

/-- Source `void handleStatus()` -/
def handleStatus (s : State) : State :=
  let status := "🔐 Door Status: "
  let status := status ++
    (if digitalRead Pin.DOOR_RELAY_PIN s = Level.HIGH then "OPEN" else "LOCKED")
  let status := status ++ "<br>Challenge expires in: "
  let status := status ++
    toString (usub CHALLENGE_TIMEOUT (usub (millis s) s.challengeTime) / 1000)
  let status := status ++ " seconds"
  server_send 200 "text/html" status s

/-- Source `String generateDAppHTML()`: the page text of the raw string literal. -/
def generateDAppHTML : String :=
  "
<!DOCTYPE html>
<html>
<head>
    <title>Blockchain Security Door</title>
    <meta name=\"viewport\" content=\"width=device-width, initial-scale=1\">
    <style>
        body \x7b
            font-family: Arial, sans-serif;
            max-width: 500px;
            margin: 50px auto;
            padding: 20px;
            background: linear-gradient(135deg, #667eea 0%, #764ba2 100%);
            color: white;
        \x7d
        .container \x7b
            background: rgba(255,255,255,0.1);
            padding: 30px;
            border-radius: 15px;
            backdrop-filter: blur(10px);
        \x7d
        button \x7b
            background: #4CAF50;
            color: white;
            padding: 15px 30px;
            border: none;
            border-radius: 8px;
            cursor: pointer;
            font-size: 16px;
            width: 100%;
            margin: 10px 0;
        \x7d
        button:hover \x7b
            background: #45a049;
        \x7d
        .status \x7b
            margin: 20px 0;
            padding: 15px;
            border-radius: 8px;
            background: rgba(255,255,255,0.1);
        \x7d
        .error \x7b
            background: rgba(255,0,0,0.3);
        \x7d
        .success \x7b
            background: rgba(0,255,0,0.3);
        \x7d
    </style>
</head>
<body>
    <div class=\"container\">
        <h1>🔐 Blockchain Security Door</h1>
        <p>Authenticate with your Ethereum wallet to access the door</p>
        
        <div id=\"status\" class=\"status\">
            Ready to authenticate...
        </div>
        
        <button onclick=\"openDoor()\">Open Door</button>
        <button onclick=\"checkStatus()\">Check Status</button>
        
        <div style=\"margin-top: 20px; font-size: 12px; opacity: 0.7;\">
            <p>Requirements:</p>
            <ul>
                <li>MetaMask or Web3 wallet</li>
                <li>Valid access token</li>
                <li>Sepolia testnet</li>
            </ul>
        </div>
    </div>

    <script>
        async function openDoor() \x7b
            const statusDiv = document.getElementById('status');
            
            try \x7b
                // Check if Web3 is available
                if (typeof window.ethereum === 'undefined') \x7b
                    throw new Error('Please install MetaMask or another Web3 wallet');
                \x7d
                
                statusDiv.innerHTML = '🔄 Getting challenge...';
                statusDiv.className = 'status';
                
                // Get challenge from device
                const challengeResponse = await fetch('/api/getChallenge');
                const challenge = await challengeResponse.text();
                
                statusDiv.innerHTML = '📝 Please sign the challenge in your wallet...';
                
                // Request account access
                await window.ethereum.request(\x7b method: 'eth_requestAccounts' \x7d);
                
                // Sign the challenge
                const accounts = await window.ethereum.request(\x7b method: 'eth_accounts' \x7d);
                const signature = await window.ethereum.request(\x7b
                    method: 'personal_sign',
                    params: [challenge, accounts[0]]
                \x7d);
                
                statusDiv.innerHTML = '🔍 Verifying signature...';
                
                // Send signature to device
                const verifyResponse = await fetch(`/api/checkSignature?sig=$\x7bsignature\x7d&addr=$\x7baccounts[0]\x7d`);
                const result = await verifyResponse.text();
                
                if (result.includes('pass')) \x7b
                    statusDiv.innerHTML = '✅ Access granted! Door opening...';
                    statusDiv.className = 'status success';
                \x7d else \x7b
                    statusDiv.innerHTML = '❌ Access denied: ' + result;
                    statusDiv.className = 'status error';
                \x7d
                
            \x7d catch (error) \x7b
                statusDiv.innerHTML = '❌ Error: ' + error.message;
                statusDiv.className = 'status error';
                console.error('Error:', error);
            \x7d
        \x7d
        
        async function checkStatus() \x7b
            try \x7b
                const response = await fetch('/api/status');
                const status = await response.text();
                document.getElementById('status').innerHTML = status;
            \x7d catch (error) \x7b
                console.error('Status check failed:', error);
            \x7d
        \x7d
        
        // Auto-refresh status every 10 seconds
        setInterval(checkStatus, 10000);
    </script>
</body>
</html>
"

/-- Source `void handleRoot()` -/
def handleRoot (s : State) : State :=
  let html := generateDAppHTML
  server_send 200 "text/html" html s

/-- A request routed by `setupWebServer` to one of the four handlers. -/
inductive Request
  | root
  | getChallenge
  | checkSignature (sig : String) (addr : String)
  | status
  deriving DecidableEq, Repr

/-- Arduino `server.handleClient()`: serve the pending request, if there is one. -/
def handleClient (env : Env) (r : Rng) (req : Option Request) (s : State) : State :=
  match req with
  | none => s
  | some Request.root => handleRoot s
  | some Request.getChallenge => handleGetChallenge r s
  | some (Request.checkSignature sig addr) => handleCheckSignature env r sig addr s
  | some Request.status => handleStatus s

/-- One iteration of `void loop()`; `rReq` feeds a rotation made by the handler, `rLoop`
the one made by the expiry check. -/
def loop (env : Env) (rReq rLoop : Rng) (req : Option Request) (s : State) : State :=
  let s := handleClient env rReq req s
  let s :=
    if usub (millis s) s.challengeTime > CHALLENGE_TIMEOUT then
      updateChallenge rLoop s
    else s
  delay 100 s

/-- What one iteration of `loop()` takes from outside: the pending request, if any, and the
raw draws for a rotation made by its handler and by the expiry check. -/
structure Tick where
  /-- The request `server.handleClient()` finds pending -/
  req : Option Request
  /-- Raw draws for a rotation inside the handler -/
  rReq : Rng
  /-- Raw draws for a rotation by the expiry check -/
  rLoop : Rng
  deriving DecidableEq, Repr

/-- The sketch running `loop()` once per tick, in order. -/
def run (env : Env) : List Tick → State → State
  | [], s => s
  | k :: ks, s => run env ks (loop env k.rReq k.rLoop k.req s)

/-! ## Observations on traces -/

/-- The events a handler appended when it took the state from `s` to `t`. -/
def emitted (s t : State) : List Event :=
  t.out.drop s.out.length

/-- The HTTP responses (status code and body) among the events, in order. -/
def responses : List Event → List (Nat × String)
  | [] => []
  | Event.send code _ body :: es => (code, body) :: responses es
  | _ :: es => responses es

/-- The pin writes and blocking delays among the events, in order. -/
def hardware : List Event → List Event
  | [] => []
  | Event.digitalWrite pin v :: es => Event.digitalWrite pin v :: hardware es
  | Event.delay ms :: es => Event.delay ms :: hardware es
  | _ :: es => hardware es

/-- The event that raises the lock relay. -/
def relayHigh : Event := Event.digitalWrite Pin.DOOR_RELAY_PIN Level.HIGH

/-- The events `handleCheckSignature` emits for the request `(sig, addr)` in state `s`. -/
def checkSignatureTrace (env : Env) (r : Rng) (sig addr : String) (s : State) : List Event :=
  emitted s (handleCheckSignature env r sig addr s)

/-- Feedback pattern for a grant (spec 4.5): two 200 ms beep/LED pulses, LED left on. -/
def grantSignal : List Event :=
  (List.replicate 2
    [Event.digitalWrite Pin.BUZZER_PIN Level.HIGH,
     Event.digitalWrite Pin.STATUS_LED_PIN Level.HIGH,
     Event.delay 200,
     Event.digitalWrite Pin.BUZZER_PIN Level.LOW,
     Event.digitalWrite Pin.STATUS_LED_PIN Level.LOW,
     Event.delay 200]).flatten ++
  [Event.digitalWrite Pin.STATUS_LED_PIN Level.HIGH]

/-- Feedback pattern for a denial (spec 4.5): five 100 ms LED pulses under a continuous
buzzer tone, LED left on. -/
def denySignal : List Event :=
  [Event.digitalWrite Pin.BUZZER_PIN Level.HIGH] ++
  (List.replicate 5
    [Event.digitalWrite Pin.STATUS_LED_PIN Level.HIGH, Event.delay 100,
     Event.digitalWrite Pin.STATUS_LED_PIN Level.LOW, Event.delay 100]).flatten ++
  [Event.digitalWrite Pin.BUZZER_PIN Level.LOW,
   Event.digitalWrite Pin.STATUS_LED_PIN Level.HIGH]

/-- Relay pulse of one actuation (spec 4.5): raise, hold 5,000 ms, lower. -/
def relayPulse : List Event :=
  [Event.digitalWrite Pin.DOOR_RELAY_PIN Level.HIGH, Event.delay 5000,
   Event.digitalWrite Pin.DOOR_RELAY_PIN Level.LOW]

/-- A state with nothing stored and nothing emitted. -/
def blank : State :=
  { currentChallenge := "", challengeTime := 0, clock := 0, relay := Level.LOW,
    led := Level.LOW, buzzer := Level.LOW, out := [] }

/-- The log lines and ledger query `checkAccessToken` emits for `user`. -/
def tokenLog (env : Env) (user : String) : List Event :=
  (checkAccessToken env user blank).2.out

/-- The events of `handleCheckSignature` up to and including the recovery call. -/
def requestLog (sig addr challenge : String) : List Event :=
  [Event.println "Checking signature...", Event.print "Signature: ", Event.println sig,
   Event.print "User Address: ", Event.println addr, Event.ecRecover sig challenge]

/-- The events of `denyAccess`. -/
def denyLog (addr : String) : List Event :=
  [Event.println "ACCESS DENIED", Event.print "User: ", Event.println addr] ++ denySignal

/-- The events of `grantAccess`. -/
def grantLog (addr : String) : List Event :=
  [Event.println "ACCESS GRANTED", Event.print "User: ", Event.println addr] ++
  grantSignal ++ [Event.println "Opening door..."] ++ relayPulse ++
  [Event.println "Door closed"]

/-- The event that lowers the lock relay. -/
def relayLow : Event := Event.digitalWrite Pin.DOOR_RELAY_PIN Level.LOW

/-- Where a relay pulse stands while a trace is read from left to right: no pulse in progress,
relay just raised, hold done. -/
inductive Phase
  | idle
  | raised
  | held
  deriving DecidableEq, Repr

/-- One event of the trace, read in phase `p`: outside a pulse anything may happen and a HIGH
write starts one; after the HIGH write only `delay(5000)` may follow, and after the hold only
the LOW write. -/
def pulseStep (p : Phase) (e : Event) : Option Phase :=
  match p with
  | Phase.idle => if e = relayHigh then some Phase.raised else some Phase.idle
  | Phase.raised => if e = Event.delay 5000 then some Phase.held else none
  | Phase.held => if e = relayLow then some Phase.idle else none

/-- Read a whole trace from phase `p`; `none` when an event breaks a pulse. -/
def pulseScan : Phase → List Event → Option Phase
  | p, [] => some p
  | p, e :: es =>
    match pulseStep p e with
    | none => none
    | some q => pulseScan q es

/-- Every write of HIGH to the relay is followed at once by `delay(5000)` and then by the
write of LOW (spec 4.5 and 8, in terms of positions in the trace). -/
def PulsesWellFormed (l : List Event) : Prop :=
  ∀ i, l[i]? = some relayHigh →
    l[i + 1]? = some (Event.delay 5000) ∧ l[i + 2]? = some relayLow

/-- The coarse reason categories of a signature check (spec 6 and 7), and the request without
a signature. -/
inductive Outcome
  | missingSignature
  | verificationError
  | addressMismatch
  | noToken
  | grant
  deriving DecidableEq, Repr

/-- The category of a request, read off what the collaborators answer: recovery raised, the
recovered address differs from the claimed one, the token gate said no, or it said yes. -/
def outcomeCategory (env : Env) (sig addr : String) (s : State) : Outcome :=
  if sig.length == 0 then Outcome.missingSignature
  else
    match env.ECRecoverFromPersonalMessage sig s.currentChallenge with
    | Except.error _ => Outcome.verificationError
    | Except.ok rec =>
      if equalsIgnoreCase addr rec then
        if (checkAccessToken env rec s).1 then Outcome.grant else Outcome.noToken
      else Outcome.addressMismatch

/-- The status code and body the transport surface lists for a category (spec 6); the
request without a signature is answered by the handler's own guard. -/
def categoryResponse : Outcome → Nat × String
  | Outcome.missingSignature => (400, "Missing signature parameter")
  | Outcome.verificationError => (500, "fail: verification error")
  | Outcome.addressMismatch => (200, "fail: signature verification failed")
  | Outcome.noToken => (200, "fail: no access token")
  | Outcome.grant => (200, "pass")

/-- The four bodies the spec lists for `checkSignature` (spec 6). -/
def checkSignatureBodies : List String :=
  ["pass", "fail: signature verification failed", "fail: no access token",
   "fail: verification error"]

/-- The step from `s` to `t` only appended events, the appended events leave no relay pulse
broken or open, and a LOW relay stayed LOW. -/
def PulseSafe (s t : State) : Prop :=
  ∃ l, t.out = s.out ++ l ∧ pulseScan Phase.idle l = some Phase.idle ∧
    (s.relay = Level.LOW → t.relay = Level.LOW)

/-! ## The contract-call flows of the other sketches -/

/-- Conversion of an integer value to `uint32_t`: the value modulo `2^32`. -/
def toUint32 (x : Nat) : Nat := x % 2 ^ 32

/-- Conversion of an integer value to `unsigned long long`: the value modulo `2^64`. -/
def toUint64 (x : Nat) : Nat := x % 2 ^ 64

/-- The three numeric arguments of a call
`contract.SendTransaction(nonceVal, gasPriceVal, gasLimitVal, ...)`, as the local variables
hold them. -/
structure SendTransactionArgs where
  /-- Local `nonceVal` -/
  nonceVal : Nat
  /-- Local `gasPriceVal` -/
  gasPriceVal : Nat
  /-- Local `gasLimitVal` -/
  gasLimitVal : Nat
  deriving DecidableEq, Repr

/-- Source `sendEthTransaction()` of `main.cpp`: `uint32_t nonceVal = (uint32_t)count`,
`unsigned long long gasPriceVal = 20000000000ULL; // 20 Gwei`,
`uint32_t gasLimitVal = 21000`. -/
def sendEthTransaction (transactionCount : Nat) : SendTransactionArgs :=
  { nonceVal := toUint32 transactionCount,
    gasPriceVal := toUint64 20000000000,
    gasLimitVal := toUint32 21000 }

/-- Source `testSmartContractInteraction()` of `main.cpp`, the `store(uint256)` transaction:
`uint32_t nonceVal = (uint32_t)count`, `uint32_t gasPriceVal = 20000000000ULL; // 20 Gwei`,
`uint32_t gasLimitVal = 100000`. -/
def testSmartContractInteraction (transactionCount : Nat) : SendTransactionArgs :=
  { nonceVal := toUint32 transactionCount,
    gasPriceVal := toUint32 20000000000,
    gasLimitVal := toUint32 100000 }

/-- Source `testSimpleStorageContract()` of `contract_interaction.cpp`, the `store(uint256)`
transaction: the same three declarations. -/
def testSimpleStorageContract (transactionCount : Nat) : SendTransactionArgs :=
  { nonceVal := toUint32 transactionCount,
    gasPriceVal := toUint32 20000000000,
    gasLimitVal := toUint32 100000 }

/-- Source `transferTokens(...)` of `erc20_example.cpp`: the same three declarations. -/
def transferTokens (transactionCount : Nat) : SendTransactionArgs :=
  { nonceVal := toUint32 transactionCount,
    gasPriceVal := toUint32 20000000000,
    gasLimitVal := toUint32 100000 }

/-- Source `approveTokens(...)` of `erc20_example.cpp`: the same declarations with
`uint32_t gasLimitVal = 80000`. -/
def approveTokens (transactionCount : Nat) : SendTransactionArgs :=
  { nonceVal := toUint32 transactionCount,
    gasPriceVal := toUint32 20000000000,
    gasLimitVal := toUint32 80000 }

/-! ## Concrete scenarios -/

/-- The mixed-case address of the wallet in the scenarios. -/
def walletAddress : String := "0xAbCd5E6f7A8b9C0d1E2f3A4b5C6d7E8f9A0b1234"

/-- The same address as a client may claim it, all lower case. -/
def walletAddressLower : String := "0xabcd5e6f7a8b9c0d1e2f3a4b5c6d7e8f9a0b1234"

/-- Some other address. -/
def strangerAddress : String := "0x1111111111111111111111111111111111111111"

/-- A recovery primitive for the scenarios: `0xsigned` is the wallet's signature over
"banana 54231", `0xmalformed` is rejected, anything else recovers to a stranger. -/
def demoRecover (sig msg : String) : Except String String :=
  if sig = "0xmalformed" then Except.error "invalid signature length"
  else if sig = "0xsigned" ∧ msg = "banana 54231" then Except.ok walletAddress
  else Except.ok strangerAddress

/-- An environment for the scenarios: the given contract string, `demoRecover`, and a ledger
that answers every query with `ledger`. -/
def demoEnv (contract : String) (ledger : Except String Nat) : Env :=
  { DOOR_CONTRACT := contract,
    ECRecoverFromPersonalMessage := demoRecover,
    balanceOf := fun _ _ => ledger }

/-- A resting state: challenge "banana 54231" issued at 0 ms, the given clock, door locked,
status LED on. -/
def demoState (clock : Nat) : State :=
  { currentChallenge := "banana 54231", challengeTime := 0, clock := clock,
    relay := Level.LOW, led := Level.HIGH, buzzer := Level.LOW, out := [] }

/-! ## Lemmas on the handlers -/

theorem emitted_of_out (s t : State) (l : List Event) (h : t.out = s.out ++ l) :
    emitted s t = l := by
  simp [emitted, h]

theorem responses_append (a b : List Event) :
    responses (a ++ b) = responses a ++ responses b := by
  induction a with
  | nil => rfl
  | cons e es ih => cases e <;> simp [responses, ih]

theorem hardware_append (a b : List Event) :
    hardware (a ++ b) = hardware a ++ hardware b := by
  induction a with
  | nil => rfl
  | cons e es ih => cases e <;> simp [hardware, ih]

theorem relayHigh_mem_hardware (l : List Event) :
    relayHigh ∈ l ↔ relayHigh ∈ hardware l := by
  induction l with
  | nil => simp [hardware]
  | cons e es ih =>
    unfold relayHigh at ih ⊢
    cases e <;> simp [hardware, ih]

theorem checkAccessToken_fst (env : Env) (user : String) (s t : State) :
    (checkAccessToken env user s).1 = (checkAccessToken env user t).1 := by
  unfold checkAccessToken
  split
  · rfl
  · cases env.balanceOf env.DOOR_CONTRACT user <;> rfl

theorem checkAccessToken_snd (env : Env) (user : String) (s : State) :
    (checkAccessToken env user s).2 = { s with out := s.out ++ tokenLog env user } := by
  unfold tokenLog checkAccessToken
  split
  · simp [Serial_println, emit, blank]
  · cases env.balanceOf env.DOOR_CONTRACT user <;>
      simp [Serial_println, Serial_print, emit, blank]

theorem responses_tokenLog (env : Env) (user : String) : responses (tokenLog env user) = [] := by
  unfold tokenLog checkAccessToken
  split
  · simp [Serial_println, emit, blank, responses]
  · cases env.balanceOf env.DOOR_CONTRACT user <;>
      simp [Serial_println, Serial_print, emit, blank, responses]

theorem hardware_tokenLog (env : Env) (user : String) : hardware (tokenLog env user) = [] := by
  unfold tokenLog checkAccessToken
  split
  · simp [Serial_println, emit, blank, hardware]
  · cases env.balanceOf env.DOOR_CONTRACT user <;>
      simp [Serial_println, Serial_print, emit, blank, hardware]

theorem tokenLog_open (env : Env) (user : String) (h : env.DOOR_CONTRACT.length < 10) :
    tokenLog env user =
      [Event.println "Warning: No door contract configured, allowing access"] := by
  simp [tokenLog, checkAccessToken, h, Serial_println, emit, blank]

theorem handleCheckSignature_missing (env : Env) (r : Rng) (sig addr : String) (s : State)
    (hsig : sig.length = 0) :
    handleCheckSignature env r sig addr s =
      { s with
        out := s.out ++ [Event.send 400 "text/plain" "Missing signature parameter"] } := by
  simp [handleCheckSignature, hsig, server_send, emit]

theorem handleCheckSignature_error (env : Env) (r : Rng) (sig addr what : String) (s : State)
    (hsig : sig.length ≠ 0)
    (hrec : env.ECRecoverFromPersonalMessage sig s.currentChallenge = Except.error what) :
    handleCheckSignature env r sig addr s =
      { s with
        out := s.out ++ (requestLog sig addr s.currentChallenge ++
          [Event.print "Error in signature verification: ", Event.println what,
           Event.send 500 "text/plain" "fail: verification error"]) } := by
  simp [handleCheckSignature, hsig, hrec, server_send, emit, Serial_print, Serial_println,
    requestLog]

theorem handleCheckSignature_mismatch (env : Env) (r : Rng) (sig addr rec : String)
    (s : State) (hsig : sig.length ≠ 0)
    (hrec : env.ECRecoverFromPersonalMessage sig s.currentChallenge = Except.ok rec)
    (hne : equalsIgnoreCase addr rec = false) :
    handleCheckSignature env r sig addr s =
      { s with
        clock := s.clock + 1000, led := Level.HIGH, buzzer := Level.LOW,
        out := s.out ++ (requestLog sig addr s.currentChallenge ++
          [Event.print "Recovered address: ", Event.println rec,
           Event.send 200 "text/plain" "fail: signature verification failed"] ++
          denyLog addr) } := by
  simp [handleCheckSignature, hsig, hrec, hne, emit, Serial_print, Serial_println,
    server_send, denyAccess, signalAccess, digitalWrite, delay, Nat.iterate, requestLog,
    denyLog, denySignal]

theorem handleCheckSignature_noToken (env : Env) (r : Rng) (sig addr rec : String)
    (s : State) (hsig : sig.length ≠ 0)
    (hrec : env.ECRecoverFromPersonalMessage sig s.currentChallenge = Except.ok rec)
    (heq : equalsIgnoreCase addr rec = true)
    (htok : (checkAccessToken env rec s).1 = false) :
    handleCheckSignature env r sig addr s =
      { s with
        clock := s.clock + 1000, led := Level.HIGH, buzzer := Level.LOW,
        out := s.out ++ (requestLog sig addr s.currentChallenge ++
          [Event.print "Recovered address: ", Event.println rec,
           Event.println "Address verification passed"] ++ tokenLog env rec ++
          [Event.send 200 "text/plain" "fail: no access token"] ++ denyLog addr) } := by
  have h1 : ∀ t, (checkAccessToken env rec t).1 = false := fun t =>
    (checkAccessToken_fst env rec t s).trans htok
  simp [handleCheckSignature, hsig, hrec, heq, h1, checkAccessToken_snd, emit, Serial_print,
    Serial_println, server_send, denyAccess, signalAccess, digitalWrite, delay, Nat.iterate,
    requestLog, denyLog, denySignal]

theorem handleCheckSignature_granted (env : Env) (r : Rng) (sig addr rec : String)
    (s : State) (hsig : sig.length ≠ 0)
    (hrec : env.ECRecoverFromPersonalMessage sig s.currentChallenge = Except.ok rec)
    (heq : equalsIgnoreCase addr rec = true)
    (htok : (checkAccessToken env rec s).1 = true) :
    handleCheckSignature env r sig addr s =
      { currentChallenge := challengeText r,
        challengeTime := (s.clock + 5800) % ULONG,
        clock := s.clock + 5800,
        relay := Level.LOW, led := Level.HIGH, buzzer := Level.LOW,
        out := s.out ++ (requestLog sig addr s.currentChallenge ++
          [Event.print "Recovered address: ", Event.println rec,
           Event.println "Address verification passed"] ++ tokenLog env rec ++
          [Event.send 200 "text/plain" "pass"] ++ grantLog addr ++
          [Event.print "New challenge: ", Event.println (challengeText r)]) } := by
  have h1 : ∀ t, (checkAccessToken env rec t).1 = true := fun t =>
    (checkAccessToken_fst env rec t s).trans htok
  simp [handleCheckSignature, hsig, hrec, heq, h1, checkAccessToken_snd, emit, Serial_print,
    Serial_println, server_send, grantAccess, openDoor, updateChallenge, millis, signalAccess,
    digitalWrite, delay, Nat.iterate, requestLog, grantLog, grantSignal, relayPulse]

theorem checkSignature_cases (env : Env) (sig addr : String) (s : State) :
    sig.length = 0 ∨
    (sig.length ≠ 0 ∧
      ∃ what, env.ECRecoverFromPersonalMessage sig s.currentChallenge = Except.error what) ∨
    (sig.length ≠ 0 ∧
      ∃ rec, env.ECRecoverFromPersonalMessage sig s.currentChallenge = Except.ok rec ∧
        equalsIgnoreCase addr rec = false) ∨
    (sig.length ≠ 0 ∧
      ∃ rec, env.ECRecoverFromPersonalMessage sig s.currentChallenge = Except.ok rec ∧
        equalsIgnoreCase addr rec = true ∧ (checkAccessToken env rec s).1 = false) ∨
    (sig.length ≠ 0 ∧
      ∃ rec, env.ECRecoverFromPersonalMessage sig s.currentChallenge = Except.ok rec ∧
        equalsIgnoreCase addr rec = true ∧ (checkAccessToken env rec s).1 = true) := by
  by_cases hsig : sig.length = 0
  · exact Or.inl hsig
  · right
    cases hrec : env.ECRecoverFromPersonalMessage sig s.currentChallenge with
    | error what => exact Or.inl ⟨hsig, what, rfl⟩
    | ok rec =>
      right
      cases heq : equalsIgnoreCase addr rec with
      | false => exact Or.inl ⟨hsig, rec, rfl, heq⟩
      | true =>
        right
        cases htok : (checkAccessToken env rec s).1 with
        | false => exact Or.inl ⟨hsig, rec, rfl, heq, htok⟩
        | true => exact Or.inr ⟨hsig, rec, rfl, heq, htok⟩

theorem trace_missing (env : Env) (r : Rng) (sig addr : String) (s : State)
    (hsig : sig.length = 0) :
    checkSignatureTrace env r sig addr s =
      [Event.send 400 "text/plain" "Missing signature parameter"] := by
  unfold checkSignatureTrace
  rw [handleCheckSignature_missing env r sig addr s hsig]
  exact emitted_of_out _ _ _ rfl

theorem trace_error (env : Env) (r : Rng) (sig addr what : String) (s : State)
    (hsig : sig.length ≠ 0)
    (hrec : env.ECRecoverFromPersonalMessage sig s.currentChallenge = Except.error what) :
    checkSignatureTrace env r sig addr s =
      requestLog sig addr s.currentChallenge ++
        [Event.print "Error in signature verification: ", Event.println what,
         Event.send 500 "text/plain" "fail: verification error"] := by
  unfold checkSignatureTrace
  rw [handleCheckSignature_error env r sig addr what s hsig hrec]
  exact emitted_of_out _ _ _ rfl

theorem trace_mismatch (env : Env) (r : Rng) (sig addr rec : String) (s : State)
    (hsig : sig.length ≠ 0)
    (hrec : env.ECRecoverFromPersonalMessage sig s.currentChallenge = Except.ok rec)
    (hne : equalsIgnoreCase addr rec = false) :
    checkSignatureTrace env r sig addr s =
      requestLog sig addr s.currentChallenge ++
        [Event.print "Recovered address: ", Event.println rec,
         Event.send 200 "text/plain" "fail: signature verification failed"] ++
        denyLog addr := by
  unfold checkSignatureTrace
  rw [handleCheckSignature_mismatch env r sig addr rec s hsig hrec hne]
  exact emitted_of_out _ _ _ rfl

theorem trace_noToken (env : Env) (r : Rng) (sig addr rec : String) (s : State)
    (hsig : sig.length ≠ 0)
    (hrec : env.ECRecoverFromPersonalMessage sig s.currentChallenge = Except.ok rec)
    (heq : equalsIgnoreCase addr rec = true)
    (htok : (checkAccessToken env rec s).1 = false) :
    checkSignatureTrace env r sig addr s =
      requestLog sig addr s.currentChallenge ++
        [Event.print "Recovered address: ", Event.println rec,
         Event.println "Address verification passed"] ++ tokenLog env rec ++
        [Event.send 200 "text/plain" "fail: no access token"] ++ denyLog addr := by
  unfold checkSignatureTrace
  rw [handleCheckSignature_noToken env r sig addr rec s hsig hrec heq htok]
  exact emitted_of_out _ _ _ rfl

theorem trace_granted (env : Env) (r : Rng) (sig addr rec : String) (s : State)
    (hsig : sig.length ≠ 0)
    (hrec : env.ECRecoverFromPersonalMessage sig s.currentChallenge = Except.ok rec)
    (heq : equalsIgnoreCase addr rec = true)
    (htok : (checkAccessToken env rec s).1 = true) :
    checkSignatureTrace env r sig addr s =
      requestLog sig addr s.currentChallenge ++
        [Event.print "Recovered address: ", Event.println rec,
         Event.println "Address verification passed"] ++ tokenLog env rec ++
        [Event.send 200 "text/plain" "pass"] ++ grantLog addr ++
        [Event.print "New challenge: ", Event.println (challengeText r)] := by
  unfold checkSignatureTrace
  rw [handleCheckSignature_granted env r sig addr rec s hsig hrec heq htok]
  exact emitted_of_out _ _ _ rfl

theorem hardware_denyLog (addr : String) : hardware (denyLog addr) = denySignal := by
  simp [denyLog, denySignal, hardware]

theorem hardware_grantLog (addr : String) :
    hardware (grantLog addr) = grantSignal ++ relayPulse := by
  simp [grantLog, grantSignal, relayPulse, hardware]

theorem responses_denyLog (addr : String) : responses (denyLog addr) = [] := by
  simp [denyLog, denySignal, responses]

theorem responses_grantLog (addr : String) : responses (grantLog addr) = [] := by
  simp [grantLog, grantSignal, relayPulse, responses]

theorem obs_missing (env : Env) (r : Rng) (sig addr : String) (s : State)
    (hsig : sig.length = 0) :
    responses (checkSignatureTrace env r sig addr s) = [(400, "Missing signature parameter")] ∧
    hardware (checkSignatureTrace env r sig addr s) = [] := by
  rw [trace_missing env r sig addr s hsig]
  simp [responses, hardware]

theorem obs_error (env : Env) (r : Rng) (sig addr what : String) (s : State)
    (hsig : sig.length ≠ 0)
    (hrec : env.ECRecoverFromPersonalMessage sig s.currentChallenge = Except.error what) :
    responses (checkSignatureTrace env r sig addr s) = [(500, "fail: verification error")] ∧
    hardware (checkSignatureTrace env r sig addr s) = [] := by
  rw [trace_error env r sig addr what s hsig hrec]
  simp [requestLog, responses, hardware]

theorem obs_mismatch (env : Env) (r : Rng) (sig addr rec : String) (s : State)
    (hsig : sig.length ≠ 0)
    (hrec : env.ECRecoverFromPersonalMessage sig s.currentChallenge = Except.ok rec)
    (hne : equalsIgnoreCase addr rec = false) :
    responses (checkSignatureTrace env r sig addr s) =
      [(200, "fail: signature verification failed")] ∧
    hardware (checkSignatureTrace env r sig addr s) = denySignal := by
  rw [trace_mismatch env r sig addr rec s hsig hrec hne]
  simp [responses_append, hardware_append, responses_denyLog, hardware_denyLog, requestLog,
    responses, hardware, denySignal]

theorem obs_noToken (env : Env) (r : Rng) (sig addr rec : String) (s : State)
    (hsig : sig.length ≠ 0)
    (hrec : env.ECRecoverFromPersonalMessage sig s.currentChallenge = Except.ok rec)
    (heq : equalsIgnoreCase addr rec = true)
    (htok : (checkAccessToken env rec s).1 = false) :
    responses (checkSignatureTrace env r sig addr s) = [(200, "fail: no access token")] ∧
    hardware (checkSignatureTrace env r sig addr s) = denySignal := by
  rw [trace_noToken env r sig addr rec s hsig hrec heq htok]
  simp [responses_append, hardware_append, responses_denyLog, hardware_denyLog,
    responses_tokenLog, hardware_tokenLog, requestLog, responses, hardware, denySignal]

theorem obs_granted (env : Env) (r : Rng) (sig addr rec : String) (s : State)
    (hsig : sig.length ≠ 0)
    (hrec : env.ECRecoverFromPersonalMessage sig s.currentChallenge = Except.ok rec)
    (heq : equalsIgnoreCase addr rec = true)
    (htok : (checkAccessToken env rec s).1 = true) :
    responses (checkSignatureTrace env r sig addr s) = [(200, "pass")] ∧
    hardware (checkSignatureTrace env r sig addr s) = grantSignal ++ relayPulse := by
  rw [trace_granted env r sig addr rec s hsig hrec heq htok]
  simp [responses_append, hardware_append, responses_grantLog, hardware_grantLog,
    responses_tokenLog, hardware_tokenLog, requestLog, responses, hardware, grantSignal,
    relayPulse]

theorem relayHigh_not_mem_denySignal : relayHigh ∉ denySignal := by decide

/-- The handler answers "pass", or raises the relay, exactly on the branch where recovery
succeeded, the addresses match ignoring case and the token gate said yes. -/
theorem granted_iff (env : Env) (r : Rng) (sig addr : String) (s : State) :
    ((relayHigh ∈ checkSignatureTrace env r sig addr s ∨
        ∃ code, (code, "pass") ∈ responses (checkSignatureTrace env r sig addr s)) ↔
      (sig.length ≠ 0 ∧
        ∃ rec, env.ECRecoverFromPersonalMessage sig s.currentChallenge = Except.ok rec ∧
          equalsIgnoreCase addr rec = true ∧ (checkAccessToken env rec s).1 = true)) := by
  rw [relayHigh_mem_hardware]
  rcases checkSignature_cases env sig addr s with h | ⟨h, what, hrec⟩ | ⟨h, rec, hrec, hne⟩ |
    ⟨h, rec, hrec, heq, htok⟩ | ⟨h, rec, hrec, heq, htok⟩
  · obtain ⟨h1, h2⟩ := obs_missing env r sig addr s h
    simp [h1, h2, h]
  · obtain ⟨h1, h2⟩ := obs_error env r sig addr what s h hrec
    simp [h1, h2, hrec]
  · obtain ⟨h1, h2⟩ := obs_mismatch env r sig addr rec s h hrec hne
    simp [h1, h2, hrec, hne, relayHigh_not_mem_denySignal]
  · obtain ⟨h1, h2⟩ := obs_noToken env r sig addr rec s h hrec heq htok
    simp [h1, h2, hrec, htok, relayHigh_not_mem_denySignal]
  · obtain ⟨h1, h2⟩ := obs_granted env r sig addr rec s h hrec heq htok
    simp [h1, h2, hrec, heq, htok, h]

theorem equalsIgnoreCaseLoop_iff (l1 l2 : List Char) (h : l1.length = l2.length) :
    equalsIgnoreCaseLoop l1 l2 = true ↔ l1.map Char.toLower = l2.map Char.toLower := by
  induction l1 generalizing l2 with
  | nil =>
    cases l2 with
    | nil => simp [equalsIgnoreCaseLoop]
    | cons c cs => simp at h
  | cons c1 p1 ih =>
    cases l2 with
    | nil => simp at h
    | cons c2 p2 =>
      have hlen : p1.length = p2.length := by simpa using h
      by_cases hc : c1.toLower = c2.toLower
      · simp [equalsIgnoreCaseLoop, hc, ih p2 hlen]
      · simp [equalsIgnoreCaseLoop, hc]

/-- The library comparison is equality of the two strings after folding `A`..`Z` to
lower case. -/
theorem equalsIgnoreCase_iff (a b : String) :
    equalsIgnoreCase a b = true ↔ a.data.map Char.toLower = b.data.map Char.toLower := by
  unfold equalsIgnoreCase
  by_cases hlen : a.length = b.length
  · by_cases h0 : a.length = 0
    · have h0b : b.length = 0 := hlen.symm.trans h0
      have ha : a.data = [] := List.length_eq_zero.mp h0
      have hb : b.data = [] := List.length_eq_zero.mp h0b
      simp [h0, h0b, ha, hb]
    · have h0b : ¬ b.length = 0 := fun hb => h0 (hlen.trans hb)
      simp [hlen, h0b]
      exact equalsIgnoreCaseLoop_iff a.data b.data hlen
  · have hne : a.data.map Char.toLower ≠ b.data.map Char.toLower := by
      intro h
      apply hlen
      have := congrArg List.length h
      simpa using this
    simp [hlen, hne]

theorem handleGetChallenge_eq (r : Rng) (s : State) :
    handleGetChallenge r s =
      { s with
        currentChallenge := challengeText r,
        challengeTime := millis s,
        out := s.out ++
          [Event.print "New challenge: ", Event.println (challengeText r),
           Event.send 200 "text/plain" (challengeText r),
           Event.print "Challenge generated: ", Event.println (challengeText r)] } := by
  simp [handleGetChallenge, updateChallenge, millis, server_send, Serial_print, Serial_println,
    emit]

theorem responses_handleGetChallenge (r : Rng) (s : State) :
    responses (emitted s (handleGetChallenge r s)) = [(200, challengeText r)] := by
  rw [handleGetChallenge_eq, emitted_of_out _ _ _ rfl]
  simp [responses]

/-- The trace of `handleCheckSignature` does not depend on the clock or on `challengeTime`. -/
theorem checkSignatureTrace_time_indep (env : Env) (r : Rng) (sig addr : String) (s : State)
    (clock issuedAt : Nat) :
    checkSignatureTrace env r sig addr { s with clock := clock, challengeTime := issuedAt } =
      checkSignatureTrace env r sig addr s := by
  rcases checkSignature_cases env sig addr s with h | ⟨h, what, hrec⟩ | ⟨h, rec, hrec, hne⟩ |
    ⟨h, rec, hrec, heq, htok⟩ | ⟨h, rec, hrec, heq, htok⟩
  · exact (trace_missing env r sig addr
      { s with clock := clock, challengeTime := issuedAt } h).trans
      (trace_missing env r sig addr s h).symm
  · exact (trace_error env r sig addr what
      { s with clock := clock, challengeTime := issuedAt } h hrec).trans
      (trace_error env r sig addr what s h hrec).symm
  · exact (trace_mismatch env r sig addr rec
      { s with clock := clock, challengeTime := issuedAt } h hrec hne).trans
      (trace_mismatch env r sig addr rec s h hrec hne).symm
  · exact (trace_noToken env r sig addr rec
      { s with clock := clock, challengeTime := issuedAt } h hrec heq
      ((checkAccessToken_fst env rec _ s).trans htok)).trans
      (trace_noToken env r sig addr rec s h hrec heq htok).symm
  · exact (trace_granted env r sig addr rec
      { s with clock := clock, challengeTime := issuedAt } h hrec heq
      ((checkAccessToken_fst env rec _ s).trans htok)).trans
      (trace_granted env r sig addr rec s h hrec heq htok).symm

/-- Unless the answer is "pass", `handleCheckSignature` leaves both challenge globals as they
were. -/
theorem not_granted_keeps_challenge (env : Env) (r : Rng) (sig addr : String) (s : State)
    (h : (200, "pass") ∉ responses (checkSignatureTrace env r sig addr s)) :
    (handleCheckSignature env r sig addr s).currentChallenge = s.currentChallenge ∧
    (handleCheckSignature env r sig addr s).challengeTime = s.challengeTime := by
  rcases checkSignature_cases env sig addr s with h0 | ⟨h0, what, hrec⟩ |
    ⟨h0, rec, hrec, hne⟩ | ⟨h0, rec, hrec, heq, htok⟩ | ⟨h0, rec, hrec, heq, htok⟩
  · rw [handleCheckSignature_missing env r sig addr s h0]
    exact ⟨rfl, rfl⟩
  · rw [handleCheckSignature_error env r sig addr what s h0 hrec]
    exact ⟨rfl, rfl⟩
  · rw [handleCheckSignature_mismatch env r sig addr rec s h0 hrec hne]
    exact ⟨rfl, rfl⟩
  · rw [handleCheckSignature_noToken env r sig addr rec s h0 hrec heq htok]
    exact ⟨rfl, rfl⟩
  · exfalso
    apply h
    rw [(obs_granted env r sig addr rec s h0 hrec heq htok).1]
    simp

/-! ## Claims -/

/-- C1. Fail-closed. Whatever the recovery primitive and the ledger do, `handleCheckSignature`
writes the relay HIGH or answers "pass" only if recovery returned an address without raising,
that address equals `addr` ignoring case, and `checkAccessToken` returned true. When recovery
raises, or when the ledger query that `checkAccessToken` makes raises, the relay is never
written HIGH. -/
theorem handleCheckSignature_fail_closed (env : Env) (r : Rng) (sig addr : String)
    (s : State) :
    ((relayHigh ∈ checkSignatureTrace env r sig addr s ∨
        ∃ code, (code, "pass") ∈ responses (checkSignatureTrace env r sig addr s)) →
      ∃ rec, env.ECRecoverFromPersonalMessage sig s.currentChallenge = Except.ok rec ∧
        equalsIgnoreCase addr rec = true ∧ (checkAccessToken env rec s).1 = true) ∧
    (∀ what, env.ECRecoverFromPersonalMessage sig s.currentChallenge = Except.error what →
      relayHigh ∉ checkSignatureTrace env r sig addr s) ∧
    (∀ rec what, env.ECRecoverFromPersonalMessage sig s.currentChallenge = Except.ok rec →
      10 ≤ env.DOOR_CONTRACT.length →
      env.balanceOf env.DOOR_CONTRACT rec = Except.error what →
      relayHigh ∉ checkSignatureTrace env r sig addr s) := by
  refine ⟨fun h => ((granted_iff env r sig addr s).mp h).2, ?_, ?_⟩
  · intro what hrec hmem
    obtain ⟨_, rec, hrec2, _, _⟩ := (granted_iff env r sig addr s).mp (Or.inl hmem)
    rw [hrec] at hrec2
    cases hrec2
  · intro rec what hrec hlen hled hmem
    obtain ⟨_, rec2, hrec2, _, htok⟩ := (granted_iff env r sig addr s).mp (Or.inl hmem)
    rw [hrec] at hrec2
    cases hrec2
    have hnot : ¬ env.DOOR_CONTRACT.length < 10 := Nat.not_lt.mpr hlen
    simp [checkAccessToken, hnot, hled] at htok

/-- C2. The address check of `handleCheckSignature` is equality after ASCII case folding
and nothing else: once recovery returned `rec`, the request gets past the address check
(its answer is not the bad-signature denial) iff `addr` and `rec` are equal after folding;
under open-mode policy every such request is granted. -/
theorem address_check_ignores_case (env : Env) (r : Rng) (sig addr rec : String) (s : State)
    (hsig : sig.length ≠ 0)
    (hrec : env.ECRecoverFromPersonalMessage sig s.currentChallenge = Except.ok rec) :
    (equalsIgnoreCase addr rec = true ↔
      addr.data.map Char.toLower = rec.data.map Char.toLower) ∧
    (responses (checkSignatureTrace env r sig addr s) ≠
        [(200, "fail: signature verification failed")] ↔
      addr.data.map Char.toLower = rec.data.map Char.toLower) ∧
    (env.DOOR_CONTRACT.length < 10 →
      addr.data.map Char.toLower = rec.data.map Char.toLower →
      responses (checkSignatureTrace env r sig addr s) = [(200, "pass")] ∧
      hardware (checkSignatureTrace env r sig addr s) = grantSignal ++ relayPulse) := by
  refine ⟨equalsIgnoreCase_iff addr rec, ?_, ?_⟩
  · rw [← equalsIgnoreCase_iff]
    cases heq : equalsIgnoreCase addr rec with
    | false => simp [(obs_mismatch env r sig addr rec s hsig hrec heq).1]
    | true =>
      cases htok : (checkAccessToken env rec s).1 with
      | false => simp [(obs_noToken env r sig addr rec s hsig hrec heq htok).1]
      | true => simp [(obs_granted env r sig addr rec s hsig hrec heq htok).1]
  · intro hopen hfold
    have heq : equalsIgnoreCase addr rec = true := (equalsIgnoreCase_iff addr rec).mpr hfold
    have htok : (checkAccessToken env rec s).1 = true := by simp [checkAccessToken, hopen]
    exact obs_granted env r sig addr rec s hsig hrec heq htok

/-- Witness for C2: the spec's scenario. Challenge "banana 54231", a signature recovering to
the mixed-case address, the all-lower-case form claimed, open mode: granted. -/
theorem address_check_ignores_case_witness :
    (demoState 1000).currentChallenge = "banana 54231" ∧
    walletAddressLower.data = walletAddress.data.map Char.toLower ∧
    walletAddressLower ≠ walletAddress ∧
    responses (checkSignatureTrace (demoEnv "" (Except.ok 0)) (Rng.mk 3 7) "0xsigned"
      walletAddressLower (demoState 1000)) = [(200, "pass")] ∧
    hardware (checkSignatureTrace (demoEnv "" (Except.ok 0)) (Rng.mk 3 7) "0xsigned"
      walletAddressLower (demoState 1000)) = grantSignal ++ relayPulse :=
  ⟨rfl, by decide, by decide,
    (address_check_ignores_case (demoEnv "" (Except.ok 0)) (Rng.mk 3 7) "0xsigned"
      walletAddressLower walletAddress (demoState 1000) (by decide) rfl).2.2
      (by decide) (by decide)⟩

/-- C3. A request whose recovered address differs from the claimed one (ignoring case) is
answered "fail: signature verification failed" and gets the deny signal; the trace is the
request log, that answer and `denyAccess`, so `checkAccessToken` is not run, the ledger is
not queried and the relay is not written HIGH. -/
theorem mismatch_is_denied_bad_signature (env : Env) (r : Rng) (sig addr rec : String)
    (s : State) (hsig : sig.length ≠ 0)
    (hrec : env.ECRecoverFromPersonalMessage sig s.currentChallenge = Except.ok rec)
    (hne : equalsIgnoreCase addr rec = false) :
    responses (checkSignatureTrace env r sig addr s) =
      [(200, "fail: signature verification failed")] ∧
    hardware (checkSignatureTrace env r sig addr s) = denySignal ∧
    checkSignatureTrace env r sig addr s =
      requestLog sig addr s.currentChallenge ++
        [Event.print "Recovered address: ", Event.println rec,
         Event.send 200 "text/plain" "fail: signature verification failed"] ++
        denyLog addr ∧
    (∀ contract user, Event.viewCall contract user ∉ checkSignatureTrace env r sig addr s) ∧
    relayHigh ∉ checkSignatureTrace env r sig addr s := by
  obtain ⟨h1, h2⟩ := obs_mismatch env r sig addr rec s hsig hrec hne
  refine ⟨h1, h2, trace_mismatch env r sig addr rec s hsig hrec hne, ?_, ?_⟩
  · intro contract user
    rw [trace_mismatch env r sig addr rec s hsig hrec hne]
    simp [requestLog, denyLog, denySignal]
  · rw [relayHigh_mem_hardware, h2]
    exact relayHigh_not_mem_denySignal

/-- Witness for C3: a signature made over a stale challenge recovers to a stranger's address
and is denied, even though the ledger would report a balance. -/
theorem mismatch_is_denied_bad_signature_witness :
    responses (checkSignatureTrace (demoEnv DOOR_CONTRACT_default (Except.ok 1)) (Rng.mk 3 7)
      "0xstale" walletAddressLower (demoState 1000)) =
      [(200, "fail: signature verification failed")] ∧
    relayHigh ∉ checkSignatureTrace (demoEnv DOOR_CONTRACT_default (Except.ok 1)) (Rng.mk 3 7)
      "0xstale" walletAddressLower (demoState 1000) :=
  have h := mismatch_is_denied_bad_signature (demoEnv DOOR_CONTRACT_default (Except.ok 1))
    (Rng.mk 3 7) "0xstale" walletAddressLower strangerAddress (demoState 1000) (by decide) rfl
    (by decide)
  ⟨h.1, h.2.2.2.2⟩

/-- C4. Once the address check has passed, the token gate alone decides: the answer is "pass"
iff `checkAccessToken` returned true; on true the grant signal and one relay pulse follow, on
false the answer is "fail: no access token" with the deny signal and no relay write. -/
theorem token_gate_decides (env : Env) (r : Rng) (sig addr rec : String) (s : State)
    (hsig : sig.length ≠ 0)
    (hrec : env.ECRecoverFromPersonalMessage sig s.currentChallenge = Except.ok rec)
    (heq : equalsIgnoreCase addr rec = true) :
    (responses (checkSignatureTrace env r sig addr s) = [(200, "pass")] ↔
      (checkAccessToken env rec s).1 = true) ∧
    ((checkAccessToken env rec s).1 = true →
      responses (checkSignatureTrace env r sig addr s) = [(200, "pass")] ∧
      hardware (checkSignatureTrace env r sig addr s) = grantSignal ++ relayPulse) ∧
    ((checkAccessToken env rec s).1 = false →
      responses (checkSignatureTrace env r sig addr s) = [(200, "fail: no access token")] ∧
      hardware (checkSignatureTrace env r sig addr s) = denySignal ∧
      relayHigh ∉ checkSignatureTrace env r sig addr s) := by
  have hgrant := obs_granted env r sig addr rec s hsig hrec heq
  have hdeny := obs_noToken env r sig addr rec s hsig hrec heq
  refine ⟨?_, hgrant, ?_⟩
  · cases htok : (checkAccessToken env rec s).1 with
    | false => simp [(hdeny htok).1]
    | true => simp [(hgrant htok).1]
  · intro htok
    refine ⟨(hdeny htok).1, (hdeny htok).2, ?_⟩
    rw [relayHigh_mem_hardware, (hdeny htok).2]
    exact relayHigh_not_mem_denySignal

/-- Witness for C4: with a configured contract, the wallet's valid signature is granted when
the ledger reports balance 1 and denied for want of a token when it reports 0. -/
theorem token_gate_decides_witness :
    responses (checkSignatureTrace (demoEnv DOOR_CONTRACT_default (Except.ok 1)) (Rng.mk 3 7)
      "0xsigned" walletAddressLower (demoState 1000)) = [(200, "pass")] ∧
    responses (checkSignatureTrace (demoEnv DOOR_CONTRACT_default (Except.ok 0)) (Rng.mk 3 7)
      "0xsigned" walletAddressLower (demoState 1000)) = [(200, "fail: no access token")] :=
  ⟨((token_gate_decides (demoEnv DOOR_CONTRACT_default (Except.ok 1)) (Rng.mk 3 7)
      "0xsigned" walletAddressLower walletAddress (demoState 1000) (by decide) rfl
      (by decide)).2.1 (by decide)).1,
   ((token_gate_decides (demoEnv DOOR_CONTRACT_default (Except.ok 0)) (Rng.mk 3 7)
      "0xsigned" walletAddressLower walletAddress (demoState 1000) (by decide) rfl
      (by decide)).2.2 (by decide)).1⟩

/-- C5. Every grant rotates the challenge: when `handleCheckSignature` answered "pass", the
stored challenge is the text of the fresh draw and `challengeTime` is the clock reading at
the rotation (5,800 ms of signalling and door hold after the request began, the reading at
return); the stored text equals the one the grant was verified against only if the fresh
draw renders that same text. -/
theorem grant_rotates_challenge (env : Env) (r : Rng) (sig addr : String) (s : State)
    (hgrant : (200, "pass") ∈ responses (checkSignatureTrace env r sig addr s)) :
    (handleCheckSignature env r sig addr s).currentChallenge = challengeText r ∧
    (handleCheckSignature env r sig addr s).challengeTime =
      millis (handleCheckSignature env r sig addr s) ∧
    (handleCheckSignature env r sig addr s).challengeTime = (s.clock + 5800) % ULONG ∧
    ((handleCheckSignature env r sig addr s).currentChallenge = s.currentChallenge ↔
      challengeText r = s.currentChallenge) := by
  obtain ⟨hsig, rec, hrec, heq, htok⟩ :=
    (granted_iff env r sig addr s).mp (Or.inr ⟨200, hgrant⟩)
  rw [handleCheckSignature_granted env r sig addr rec s hsig hrec heq htok]
  simp [millis]

/-- Witness for C5: a granted request in the scenario state, with a draw that renders
"cherry 10007". -/
theorem grant_rotates_challenge_witness :
    (handleCheckSignature (demoEnv "" (Except.ok 0)) (Rng.mk 2 7) "0xsigned"
      walletAddressLower (demoState 1000)).currentChallenge = "cherry 10007" ∧
    (handleCheckSignature (demoEnv "" (Except.ok 0)) (Rng.mk 2 7) "0xsigned"
      walletAddressLower (demoState 1000)).challengeTime = 6800 :=
  have h := grant_rotates_challenge (demoEnv "" (Except.ok 0)) (Rng.mk 2 7) "0xsigned"
    walletAddressLower (demoState 1000) (by decide)
  ⟨h.1.trans (by decide), h.2.2.1.trans (by decide)⟩

/-- Counterexample to C6: two consecutive loop iterations each serve a challenge request, both
well inside the timeout window of the stored challenge "banana 54231"; the first returns
"apple 10000", the second "banana 10001", and the second changes the stored challenge and
its issue time. -/
theorem getChallenge_not_idempotent :
    usub (millis (demoState 1000)) (demoState 1000).challengeTime ≤ CHALLENGE_TIMEOUT ∧
    responses (emitted (demoState 1000)
      (loop (demoEnv "" (Except.ok 0)) (Rng.mk 0 0) (Rng.mk 5 5) (some Request.getChallenge)
        (demoState 1000))) = [(200, "apple 10000")] ∧
    usub (millis (loop (demoEnv "" (Except.ok 0)) (Rng.mk 0 0) (Rng.mk 5 5)
        (some Request.getChallenge) (demoState 1000)))
      (loop (demoEnv "" (Except.ok 0)) (Rng.mk 0 0) (Rng.mk 5 5)
        (some Request.getChallenge) (demoState 1000)).challengeTime ≤ CHALLENGE_TIMEOUT ∧
    responses (emitted
      (loop (demoEnv "" (Except.ok 0)) (Rng.mk 0 0) (Rng.mk 5 5) (some Request.getChallenge)
        (demoState 1000))
      (loop (demoEnv "" (Except.ok 0)) (Rng.mk 1 1) (Rng.mk 5 5) (some Request.getChallenge)
        (loop (demoEnv "" (Except.ok 0)) (Rng.mk 0 0) (Rng.mk 5 5) (some Request.getChallenge)
          (demoState 1000)))) = [(200, "banana 10001")] ∧
    (loop (demoEnv "" (Except.ok 0)) (Rng.mk 1 1) (Rng.mk 5 5) (some Request.getChallenge)
        (loop (demoEnv "" (Except.ok 0)) (Rng.mk 0 0) (Rng.mk 5 5) (some Request.getChallenge)
          (demoState 1000))).currentChallenge ≠
      (loop (demoEnv "" (Except.ok 0)) (Rng.mk 0 0) (Rng.mk 5 5) (some Request.getChallenge)
        (demoState 1000)).currentChallenge ∧
    (loop (demoEnv "" (Except.ok 0)) (Rng.mk 1 1) (Rng.mk 5 5) (some Request.getChallenge)
        (loop (demoEnv "" (Except.ok 0)) (Rng.mk 0 0) (Rng.mk 5 5) (some Request.getChallenge)
          (demoState 1000))).challengeTime ≠
      (loop (demoEnv "" (Except.ok 0)) (Rng.mk 0 0) (Rng.mk 5 5) (some Request.getChallenge)
        (demoState 1000)).challengeTime := by
  decide

/-- C6, amended. Every `handleGetChallenge` call, live challenge or not, stores the text of
its own fresh draw with `challengeTime` set to the current `millis()` and returns that text;
of two consecutive calls the second leaves the stored text as it was only if its draw renders
the same text as the first. -/
theorem getChallenge_issues_fresh_draw (r1 r2 : Rng) (s : State) :
    responses (emitted s (handleGetChallenge r1 s)) = [(200, challengeText r1)] ∧
    (handleGetChallenge r1 s).currentChallenge = challengeText r1 ∧
    (handleGetChallenge r1 s).challengeTime = millis s ∧
    responses (emitted (handleGetChallenge r1 s)
      (handleGetChallenge r2 (handleGetChallenge r1 s))) = [(200, challengeText r2)] ∧
    ((handleGetChallenge r2 (handleGetChallenge r1 s)).currentChallenge =
        (handleGetChallenge r1 s).currentChallenge ↔
      challengeText r2 = challengeText r1) := by
  refine ⟨responses_handleGetChallenge r1 s, ?_, ?_,
    responses_handleGetChallenge r2 (handleGetChallenge r1 s), ?_⟩
  · rw [handleGetChallenge_eq]
  · rw [handleGetChallenge_eq]
  · rw [handleGetChallenge_eq r2, handleGetChallenge_eq r1]

/-- Counterexample to C7: the challenge "banana 54231" was issued at 0 ms; an idle loop
iteration at 299,950 ms does not rotate it and ends at 300,050 ms; the request served next
finds it expired, still runs recovery against it and is granted. -/
theorem expired_challenge_is_accepted :
    (loop (demoEnv "" (Except.ok 0)) (Rng.mk 0 0) (Rng.mk 5 5) none
      (demoState 299950)).currentChallenge = "banana 54231" ∧
    usub (millis (loop (demoEnv "" (Except.ok 0)) (Rng.mk 0 0) (Rng.mk 5 5) none
        (demoState 299950)))
      (loop (demoEnv "" (Except.ok 0)) (Rng.mk 0 0) (Rng.mk 5 5) none
        (demoState 299950)).challengeTime > CHALLENGE_TIMEOUT ∧
    Event.ecRecover "0xsigned" "banana 54231" ∈
      checkSignatureTrace (demoEnv "" (Except.ok 0)) (Rng.mk 0 0) "0xsigned"
        walletAddressLower
        (loop (demoEnv "" (Except.ok 0)) (Rng.mk 0 0) (Rng.mk 5 5) none (demoState 299950)) ∧
    responses (checkSignatureTrace (demoEnv "" (Except.ok 0)) (Rng.mk 0 0) "0xsigned"
        walletAddressLower
        (loop (demoEnv "" (Except.ok 0)) (Rng.mk 0 0) (Rng.mk 5 5) none (demoState 299950))) =
      [(200, "pass")] ∧
    relayHigh ∈
      checkSignatureTrace (demoEnv "" (Except.ok 0)) (Rng.mk 0 0) "0xsigned"
        walletAddressLower
        (loop (demoEnv "" (Except.ok 0)) (Rng.mk 0 0) (Rng.mk 5 5) none (demoState 299950)) := by
  decide

/-- C7, amended. `handleCheckSignature` makes no liveness check: for a non-empty `sig` it
runs recovery against the stored challenge text whatever its age, and its whole trace (answer,
signals, relay writes) is the same for every value of the clock and of `challengeTime`. -/
theorem checkSignature_ignores_challenge_age (env : Env) (r : Rng) (sig addr : String)
    (s : State) (clock issuedAt : Nat) (hsig : sig.length ≠ 0) :
    Event.ecRecover sig s.currentChallenge ∈ checkSignatureTrace env r sig addr s ∧
    checkSignatureTrace env r sig addr { s with clock := clock, challengeTime := issuedAt } =
      checkSignatureTrace env r sig addr s := by
  refine ⟨?_, checkSignatureTrace_time_indep env r sig addr s clock issuedAt⟩
  rcases checkSignature_cases env sig addr s with h | ⟨h, what, hrec⟩ | ⟨h, rec, hrec, hne⟩ |
    ⟨h, rec, hrec, heq, htok⟩ | ⟨h, rec, hrec, heq, htok⟩
  · exact absurd h hsig
  · rw [trace_error env r sig addr what s h hrec]
    simp [requestLog]
  · rw [trace_mismatch env r sig addr rec s h hrec hne]
    simp [requestLog]
  · rw [trace_noToken env r sig addr rec s h hrec heq htok]
    simp [requestLog]
  · rw [trace_granted env r sig addr rec s h hrec heq htok]
    simp [requestLog]

/-- Witness for C7, amended: the same request at 1,000 ms and at 400,000 ms after issue. -/
theorem checkSignature_ignores_challenge_age_witness :
    checkSignatureTrace (demoEnv "" (Except.ok 0)) (Rng.mk 0 0) "0xsigned" walletAddressLower
        { demoState 1000 with clock := 400000, challengeTime := 0 } =
      checkSignatureTrace (demoEnv "" (Except.ok 0)) (Rng.mk 0 0) "0xsigned"
        walletAddressLower (demoState 1000) :=
  (checkSignature_ignores_challenge_age (demoEnv "" (Except.ok 0)) (Rng.mk 0 0) "0xsigned"
    walletAddressLower (demoState 1000) 400000 0 (by decide)).2

/-- Counterexample to C8: a request with a bad signature is denied and leaves the stored
challenge "banana 54231" and its issue time in place; so does a request denied for want of a
token; the retry with the wallet's signature over that same challenge is then granted. -/
theorem denied_attempt_keeps_challenge :
    responses (checkSignatureTrace (demoEnv "" (Except.ok 0)) (Rng.mk 0 0) "0xstale"
      walletAddressLower (demoState 1000)) = [(200, "fail: signature verification failed")] ∧
    (handleCheckSignature (demoEnv "" (Except.ok 0)) (Rng.mk 0 0) "0xstale"
      walletAddressLower (demoState 1000)).currentChallenge = "banana 54231" ∧
    (handleCheckSignature (demoEnv "" (Except.ok 0)) (Rng.mk 0 0) "0xstale"
      walletAddressLower (demoState 1000)).challengeTime = (demoState 1000).challengeTime ∧
    responses (checkSignatureTrace (demoEnv "" (Except.ok 0)) (Rng.mk 0 0) "0xsigned"
      walletAddressLower
      (handleCheckSignature (demoEnv "" (Except.ok 0)) (Rng.mk 0 0) "0xstale"
        walletAddressLower (demoState 1000))) = [(200, "pass")] ∧
    responses (checkSignatureTrace (demoEnv DOOR_CONTRACT_default (Except.ok 0)) (Rng.mk 0 0)
      "0xsigned" walletAddressLower (demoState 1000)) = [(200, "fail: no access token")] ∧
    (handleCheckSignature (demoEnv DOOR_CONTRACT_default (Except.ok 0)) (Rng.mk 0 0)
      "0xsigned" walletAddressLower (demoState 1000)).currentChallenge = "banana 54231" := by
  decide

/-- C8, amended. Only a grant rotates the challenge: after an answer "pass" the stored
challenge is the text of a fresh draw; after every other answer the stored challenge and its
issue time are exactly what they were before the request. -/
theorem only_grant_rotates_challenge (env : Env) (r : Rng) (sig addr : String) (s : State) :
    ((200, "pass") ∈ responses (checkSignatureTrace env r sig addr s) →
      (handleCheckSignature env r sig addr s).currentChallenge = challengeText r) ∧
    ((200, "pass") ∉ responses (checkSignatureTrace env r sig addr s) →
      (handleCheckSignature env r sig addr s).currentChallenge = s.currentChallenge ∧
      (handleCheckSignature env r sig addr s).challengeTime = s.challengeTime) := by
  refine ⟨?_, not_granted_keeps_challenge env r sig addr s⟩
  intro hgrant
  obtain ⟨hsig, rec, hrec, heq, htok⟩ :=
    (granted_iff env r sig addr s).mp (Or.inr ⟨200, hgrant⟩)
  rw [handleCheckSignature_granted env r sig addr rec s hsig hrec heq htok]

/-- Counterexample to C9: the request is granted against "banana 54231"; the rotation draws
word 1 and number 54231, which renders "banana 54231" again; the same `sig` and `addr` sent
once more are granted once more and the relay is raised again. -/
theorem replay_granted_on_redraw :
    (demoState 1000).currentChallenge = "banana 54231" ∧
    responses (checkSignatureTrace (demoEnv "" (Except.ok 0)) (Rng.mk 1 44231) "0xsigned"
      walletAddressLower (demoState 1000)) = [(200, "pass")] ∧
    (handleCheckSignature (demoEnv "" (Except.ok 0)) (Rng.mk 1 44231) "0xsigned"
      walletAddressLower (demoState 1000)).currentChallenge = "banana 54231" ∧
    responses (checkSignatureTrace (demoEnv "" (Except.ok 0)) (Rng.mk 2 7) "0xsigned"
      walletAddressLower
      (handleCheckSignature (demoEnv "" (Except.ok 0)) (Rng.mk 1 44231) "0xsigned"
        walletAddressLower (demoState 1000))) = [(200, "pass")] ∧
    relayHigh ∈ checkSignatureTrace (demoEnv "" (Except.ok 0)) (Rng.mk 2 7) "0xsigned"
      walletAddressLower
      (handleCheckSignature (demoEnv "" (Except.ok 0)) (Rng.mk 1 44231) "0xsigned"
        walletAddressLower (demoState 1000)) := by
  decide

/-- C9, amended. After a granted request the same `sig` and `addr`, sent again at once, are
judged against the rotated challenge: the answer is the bad-signature denial, with no relay
write, whenever recovery of `sig` over the rotated text yields an address different from
`addr`; it is "pass" exactly when that recovery yields an address equal to `addr` ignoring
case and the token gate says yes, which is the case whenever the rotation redraws the text
of the consumed challenge. -/
theorem replay_after_grant (env : Env) (r1 r2 : Rng) (sig addr : String) (s : State)
    (hgrant : (200, "pass") ∈ responses (checkSignatureTrace env r1 sig addr s)) :
    (handleCheckSignature env r1 sig addr s).currentChallenge = challengeText r1 ∧
    (∀ rec, env.ECRecoverFromPersonalMessage sig (challengeText r1) = Except.ok rec →
      equalsIgnoreCase addr rec = false →
      responses (checkSignatureTrace env r2 sig addr (handleCheckSignature env r1 sig addr s)) =
        [(200, "fail: signature verification failed")] ∧
      relayHigh ∉ checkSignatureTrace env r2 sig addr (handleCheckSignature env r1 sig addr s)) ∧
    ((∃ code, (code, "pass") ∈
        responses (checkSignatureTrace env r2 sig addr (handleCheckSignature env r1 sig addr s))) ↔
      ∃ rec, env.ECRecoverFromPersonalMessage sig (challengeText r1) = Except.ok rec ∧
        equalsIgnoreCase addr rec = true ∧ (checkAccessToken env rec s).1 = true) ∧
    (challengeText r1 = s.currentChallenge →
      responses (checkSignatureTrace env r2 sig addr (handleCheckSignature env r1 sig addr s)) =
        [(200, "pass")]) := by
  obtain ⟨hsig, rec0, hrec0, heq0, htok0⟩ :=
    (granted_iff env r1 sig addr s).mp (Or.inr ⟨200, hgrant⟩)
  have hcur : (handleCheckSignature env r1 sig addr s).currentChallenge = challengeText r1 := by
    rw [handleCheckSignature_granted env r1 sig addr rec0 s hsig hrec0 heq0 htok0]
  refine ⟨hcur, ?_, ?_, ?_⟩
  · intro rec hrec hne
    have hrec1 : env.ECRecoverFromPersonalMessage sig
        (handleCheckSignature env r1 sig addr s).currentChallenge = Except.ok rec := by
      rw [hcur]; exact hrec
    obtain ⟨h1, h2⟩ := obs_mismatch env r2 sig addr rec _ hsig hrec1 hne
    refine ⟨h1, ?_⟩
    rw [relayHigh_mem_hardware, h2]
    exact relayHigh_not_mem_denySignal
  · constructor
    · intro h
      obtain ⟨_, rec, hrec, heq, htok⟩ :=
        (granted_iff env r2 sig addr (handleCheckSignature env r1 sig addr s)).mp (Or.inr h)
      rw [hcur] at hrec
      exact ⟨rec, hrec, heq, (checkAccessToken_fst env rec s _).trans htok⟩
    · rintro ⟨rec, hrec, heq, htok⟩
      have hrec1 : env.ECRecoverFromPersonalMessage sig
          (handleCheckSignature env r1 sig addr s).currentChallenge = Except.ok rec := by
        rw [hcur]; exact hrec
      have h1 := (obs_granted env r2 sig addr rec _ hsig hrec1 heq
        ((checkAccessToken_fst env rec _ s).trans htok)).1
      exact ⟨200, by rw [h1]; simp⟩
  · intro hsame
    have hrec1 : env.ECRecoverFromPersonalMessage sig
        (handleCheckSignature env r1 sig addr s).currentChallenge = Except.ok rec0 := by
      rw [hcur, hsame]; exact hrec0
    exact (obs_granted env r2 sig addr rec0 _ hsig hrec1 heq0
      ((checkAccessToken_fst env rec0 _ s).trans htok0)).1

/-- Witness for C9, amended: the rotation draws "cherry 10007"; the replayed signature
recovers to a stranger over that text and is denied. -/
theorem replay_after_grant_witness :
    (handleCheckSignature (demoEnv "" (Except.ok 0)) (Rng.mk 2 7) "0xsigned"
      walletAddressLower (demoState 1000)).currentChallenge = challengeText (Rng.mk 2 7) ∧
    responses (checkSignatureTrace (demoEnv "" (Except.ok 0)) (Rng.mk 4 9) "0xsigned"
      walletAddressLower
      (handleCheckSignature (demoEnv "" (Except.ok 0)) (Rng.mk 2 7) "0xsigned"
        walletAddressLower (demoState 1000))) =
      [(200, "fail: signature verification failed")] :=
  have h := replay_after_grant (demoEnv "" (Except.ok 0)) (Rng.mk 2 7) (Rng.mk 4 9) "0xsigned"
    walletAddressLower (demoState 1000) (by decide)
  ⟨h.1, (h.2.1 strangerAddress rfl (by decide)).1⟩

/-- C10. Open mode. When `DOOR_CONTRACT` has fewer than 10 characters, `checkAccessToken`
returns true for every address and emits no ledger query; every request whose signature
recovers to the claimed address (ignoring case) is then answered "pass" with the grant signal
and the relay pulse, whatever the ledger would have returned or raised. -/
theorem open_mode_grants (env : Env) (hopen : env.DOOR_CONTRACT.length < 10) :
    (∀ user s, (checkAccessToken env user s).1 = true ∧
      ∀ contract u, Event.viewCall contract u ∉ emitted s (checkAccessToken env user s).2) ∧
    (∀ r sig addr rec s, sig.length ≠ 0 →
      env.ECRecoverFromPersonalMessage sig s.currentChallenge = Except.ok rec →
      equalsIgnoreCase addr rec = true →
      responses (checkSignatureTrace env r sig addr s) = [(200, "pass")] ∧
      hardware (checkSignatureTrace env r sig addr s) = grantSignal ++ relayPulse ∧
      ∀ contract u, Event.viewCall contract u ∉ checkSignatureTrace env r sig addr s) := by
  have htok : ∀ user s, (checkAccessToken env user s).1 = true := by
    intro user s
    simp [checkAccessToken, hopen]
  refine ⟨fun user s => ⟨htok user s, ?_⟩, ?_⟩
  · intro contract u
    rw [checkAccessToken_snd, emitted_of_out _ _ _ rfl, tokenLog_open env user hopen]
    simp
  · intro r sig addr rec s hsig hrec heq
    obtain ⟨h1, h2⟩ := obs_granted env r sig addr rec s hsig hrec heq (htok rec s)
    refine ⟨h1, h2, ?_⟩
    intro contract u
    rw [trace_granted env r sig addr rec s hsig hrec heq (htok rec s),
      tokenLog_open env rec hopen]
    simp [requestLog, grantLog, grantSignal, relayPulse]

/-- Witness for C10: no contract configured and a ledger that would time out; the token gate
says yes and the wallet's request is granted. -/
theorem open_mode_grants_witness :
    (checkAccessToken (demoEnv "" (Except.error "timeout")) walletAddress
      (demoState 1000)).1 = true ∧
    responses (checkSignatureTrace (demoEnv "" (Except.error "timeout")) (Rng.mk 2 7)
      "0xsigned" walletAddressLower (demoState 1000)) = [(200, "pass")] :=
  have h := open_mode_grants (demoEnv "" (Except.error "timeout")) (by decide)
  ⟨(h.1 walletAddress (demoState 1000)).1,
   (h.2 (Rng.mk 2 7) "0xsigned" walletAddressLower walletAddress (demoState 1000) (by decide)
     rfl (by decide)).1⟩

/-- The response of `handleCheckSignature` is the one listed for the request's category. -/
theorem responses_eq_category (env : Env) (r : Rng) (sig addr : String) (s : State) :
    responses (checkSignatureTrace env r sig addr s) =
      [categoryResponse (outcomeCategory env sig addr s)] := by
  rcases checkSignature_cases env sig addr s with h | ⟨h, what, hrec⟩ | ⟨h, rec, hrec, hne⟩ |
    ⟨h, rec, hrec, heq, htok⟩ | ⟨h, rec, hrec, heq, htok⟩
  · rw [(obs_missing env r sig addr s h).1]
    simp [outcomeCategory, h, categoryResponse]
  · rw [(obs_error env r sig addr what s h hrec).1]
    simp [outcomeCategory, h, hrec, categoryResponse]
  · rw [(obs_mismatch env r sig addr rec s h hrec hne).1]
    simp [outcomeCategory, h, hrec, hne, categoryResponse]
  · rw [(obs_noToken env r sig addr rec s h hrec heq htok).1]
    simp [outcomeCategory, h, hrec, heq, htok, categoryResponse]
  · rw [(obs_granted env r sig addr rec s h hrec heq htok).1]
    simp [outcomeCategory, h, hrec, heq, htok, categoryResponse]

theorem tokenLog_error (env : Env) (user what : String) (hconf : 10 ≤ env.DOOR_CONTRACT.length)
    (hled : env.balanceOf env.DOOR_CONTRACT user = Except.error what) :
    tokenLog env user =
      [Event.viewCall env.DOOR_CONTRACT user, Event.print "Error checking access token: ",
       Event.println what] := by
  have hnot : ¬ env.DOOR_CONTRACT.length < 10 := Nat.not_lt.mpr hconf
  simp [tokenLog, checkAccessToken, hnot, hled, Serial_print, Serial_println, emit, blank]

theorem tokenLog_balance (env : Env) (user : String) (b : Nat)
    (hconf : 10 ≤ env.DOOR_CONTRACT.length)
    (hbal : env.balanceOf env.DOOR_CONTRACT user = Except.ok b) :
    tokenLog env user =
      [Event.viewCall env.DOOR_CONTRACT user, Event.print "User token balance: ",
       Event.println (toString b)] := by
  have hnot : ¬ env.DOOR_CONTRACT.length < 10 := Nat.not_lt.mpr hconf
  simp [tokenLog, checkAccessToken, hnot, hbal, Serial_print, Serial_println, emit, blank]

/-- C11. Configured-policy mode. With a contract configured (`DOOR_CONTRACT` of at least 10
characters) and a `balanceOf` view call that returns the balance `b` without raising,
`checkAccessToken` queries the ledger for that address and returns true iff `b > 0`, false
iff `b = 0`; this holds for every `b`, so for every `b` below `2^256`. -/
theorem configured_mode_follows_balance (env : Env) (user : String) (s : State) (b : Nat)
    (hconf : 10 ≤ env.DOOR_CONTRACT.length)
    (hbal : env.balanceOf env.DOOR_CONTRACT user = Except.ok b) :
    ((checkAccessToken env user s).1 = true ↔ b > 0) ∧
    ((checkAccessToken env user s).1 = false ↔ b = 0) ∧
    emitted s (checkAccessToken env user s).2 =
      [Event.viewCall env.DOOR_CONTRACT user, Event.print "User token balance: ",
       Event.println (toString b)] := by
  have hnot : ¬ env.DOOR_CONTRACT.length < 10 := Nat.not_lt.mpr hconf
  refine ⟨?_, ?_, ?_⟩
  · simp [checkAccessToken, hnot, hbal]
  · simp [checkAccessToken, hnot, hbal]
  · rw [checkAccessToken_snd, emitted_of_out _ _ _ rfl, tokenLog_balance env user b hconf hbal]

/-- Witness for C11: the shipped contract string, a ledger reporting the largest `uint256`
balance, and one reporting 0. -/
theorem configured_mode_follows_balance_witness :
    (checkAccessToken (demoEnv DOOR_CONTRACT_default (Except.ok (2 ^ 256 - 1))) walletAddress
      (demoState 1000)).1 = true ∧
    (checkAccessToken (demoEnv DOOR_CONTRACT_default (Except.ok 0)) walletAddress
      (demoState 1000)).1 = false :=
  ⟨(configured_mode_follows_balance (demoEnv DOOR_CONTRACT_default (Except.ok (2 ^ 256 - 1)))
      walletAddress (demoState 1000) (2 ^ 256 - 1) (by decide) rfl).1.mpr (by decide),
   (configured_mode_follows_balance (demoEnv DOOR_CONTRACT_default (Except.ok 0))
      walletAddress (demoState 1000) 0 (by decide) rfl).2.1.mpr rfl⟩

/-- Counterexample to C12: for the wallet's valid signature under the shipped contract string,
a ledger that times out and a ledger that reports balance 0 get the same answer and the same
signal; the answer names no ledger failure. -/
theorem ledger_failure_answered_as_no_token :
    responses (checkSignatureTrace (demoEnv DOOR_CONTRACT_default (Except.error "timeout"))
      (Rng.mk 0 0) "0xsigned" walletAddressLower (demoState 1000)) =
      [(200, "fail: no access token")] ∧
    responses (checkSignatureTrace (demoEnv DOOR_CONTRACT_default (Except.ok 0))
      (Rng.mk 0 0) "0xsigned" walletAddressLower (demoState 1000)) =
      [(200, "fail: no access token")] ∧
    hardware (checkSignatureTrace (demoEnv DOOR_CONTRACT_default (Except.error "timeout"))
      (Rng.mk 0 0) "0xsigned" walletAddressLower (demoState 1000)) =
    hardware (checkSignatureTrace (demoEnv DOOR_CONTRACT_default (Except.ok 0))
      (Rng.mk 0 0) "0xsigned" walletAddressLower (demoState 1000)) := by
  decide

/-- C12, amended. When the ledger query raises for a request whose signature recovers to the
claimed address under a configured contract, the request is never granted: the answer is
"fail: no access token" with the deny signal and no relay write. That answer differs from the
bad-signature answer and is the one a zero balance gets; the failure itself appears only in
the serial log, as "Error checking access token: " and the exception text. -/
theorem ledger_failure_is_denied (env : Env) (r : Rng) (sig addr rec what : String)
    (s : State) (hsig : sig.length ≠ 0)
    (hrec : env.ECRecoverFromPersonalMessage sig s.currentChallenge = Except.ok rec)
    (heq : equalsIgnoreCase addr rec = true)
    (hconf : 10 ≤ env.DOOR_CONTRACT.length)
    (hled : env.balanceOf env.DOOR_CONTRACT rec = Except.error what) :
    responses (checkSignatureTrace env r sig addr s) = [(200, "fail: no access token")] ∧
    responses (checkSignatureTrace env r sig addr s) ≠
      [(200, "fail: signature verification failed")] ∧
    responses (checkSignatureTrace env r sig addr s) =
      [categoryResponse Outcome.noToken] ∧
    hardware (checkSignatureTrace env r sig addr s) = denySignal ∧
    relayHigh ∉ checkSignatureTrace env r sig addr s ∧
    checkSignatureTrace env r sig addr s =
      requestLog sig addr s.currentChallenge ++
        [Event.print "Recovered address: ", Event.println rec,
         Event.println "Address verification passed"] ++
        [Event.viewCall env.DOOR_CONTRACT rec, Event.print "Error checking access token: ",
         Event.println what] ++
        [Event.send 200 "text/plain" "fail: no access token"] ++ denyLog addr := by
  have hnot : ¬ env.DOOR_CONTRACT.length < 10 := Nat.not_lt.mpr hconf
  have htok : (checkAccessToken env rec s).1 = false := by
    simp [checkAccessToken, hnot, hled]
  obtain ⟨h1, h2⟩ := obs_noToken env r sig addr rec s hsig hrec heq htok
  refine ⟨h1, ?_, ?_, h2, ?_, ?_⟩
  · rw [h1]; decide
  · rw [h1]; rfl
  · rw [relayHigh_mem_hardware, h2]
    exact relayHigh_not_mem_denySignal
  · rw [trace_noToken env r sig addr rec s hsig hrec heq htok,
      tokenLog_error env rec what hconf hled]

/-- Witness for C12, amended: the wallet's valid signature, the shipped contract string, a
ledger that times out. -/
theorem ledger_failure_is_denied_witness :
    responses (checkSignatureTrace (demoEnv DOOR_CONTRACT_default (Except.error "timeout"))
      (Rng.mk 0 0) "0xsigned" walletAddressLower (demoState 1000)) =
      [(200, "fail: no access token")] ∧
    relayHigh ∉ checkSignatureTrace (demoEnv DOOR_CONTRACT_default (Except.error "timeout"))
      (Rng.mk 0 0) "0xsigned" walletAddressLower (demoState 1000) :=
  have h := ledger_failure_is_denied (demoEnv DOOR_CONTRACT_default (Except.error "timeout"))
    (Rng.mk 0 0) "0xsigned" walletAddressLower walletAddress "timeout" (demoState 1000)
    (by decide) rfl (by decide) (by decide) rfl
  ⟨h.1, h.2.2.2.2.1⟩

/-- Counterexample to C13: recovery raises on the signature `0xmalformed`; the answer is status
500 "fail: verification error" and no pin is written, whereas an address mismatch is answered
"fail: signature verification failed" with the deny signal. -/
theorem recovery_error_is_not_bad_signature :
    responses (checkSignatureTrace (demoEnv "" (Except.ok 0)) (Rng.mk 0 0) "0xmalformed"
      walletAddressLower (demoState 1000)) = [(500, "fail: verification error")] ∧
    hardware (checkSignatureTrace (demoEnv "" (Except.ok 0)) (Rng.mk 0 0) "0xmalformed"
      walletAddressLower (demoState 1000)) = [] ∧
    responses (checkSignatureTrace (demoEnv "" (Except.ok 0)) (Rng.mk 0 0) "0xstale"
      walletAddressLower (demoState 1000)) = [(200, "fail: signature verification failed")] ∧
    hardware (checkSignatureTrace (demoEnv "" (Except.ok 0)) (Rng.mk 0 0) "0xstale"
      walletAddressLower (demoState 1000)) = denySignal := by
  decide

/-- C13, amended. When the recovery primitive raises, `handleCheckSignature` logs the
exception text, answers status 500 "fail: verification error" and does nothing else: no deny
signal, no pin write, no ledger query, no change of state but the trace; the request is never
granted. -/
theorem recovery_error_is_verification_error (env : Env) (r : Rng) (sig addr what : String)
    (s : State) (hsig : sig.length ≠ 0)
    (hrec : env.ECRecoverFromPersonalMessage sig s.currentChallenge = Except.error what) :
    responses (checkSignatureTrace env r sig addr s) = [(500, "fail: verification error")] ∧
    hardware (checkSignatureTrace env r sig addr s) = [] ∧
    relayHigh ∉ checkSignatureTrace env r sig addr s ∧
    checkSignatureTrace env r sig addr s =
      requestLog sig addr s.currentChallenge ++
        [Event.print "Error in signature verification: ", Event.println what,
         Event.send 500 "text/plain" "fail: verification error"] ∧
    handleCheckSignature env r sig addr s =
      { s with out := s.out ++ checkSignatureTrace env r sig addr s } := by
  obtain ⟨h1, h2⟩ := obs_error env r sig addr what s hsig hrec
  refine ⟨h1, h2, ?_, trace_error env r sig addr what s hsig hrec, ?_⟩
  · rw [relayHigh_mem_hardware, h2]
    simp
  · rw [trace_error env r sig addr what s hsig hrec,
      handleCheckSignature_error env r sig addr what s hsig hrec]

/-- Witness for C13, amended: the signature `0xmalformed`. -/
theorem recovery_error_is_verification_error_witness :
    responses (checkSignatureTrace (demoEnv "" (Except.ok 0)) (Rng.mk 0 0) "0xmalformed"
      walletAddressLower (demoState 1000)) = [(500, "fail: verification error")] :=
  (recovery_error_is_verification_error (demoEnv "" (Except.ok 0)) (Rng.mk 0 0) "0xmalformed"
    walletAddressLower "invalid signature length" (demoState 1000) (by decide) rfl).1

theorem random_word_lt (raw : Nat) : random 0 8 raw < 8 := by
  unfold random
  simp
  omega

theorem random_number_bounds (raw : Nat) :
    10000 ≤ random 10000 99999 raw ∧ random 10000 99999 raw < 99999 := by
  unfold random
  simp
  omega

theorem toDigitsCore_more (f n : Nat) (ds : List Char) (h : n / 10 ≠ 0) :
    Nat.toDigitsCore 10 (f + 1) n ds =
      Nat.toDigitsCore 10 f (n / 10) (Nat.digitChar (n % 10) :: ds) := by
  simp [Nat.toDigitsCore, h]

theorem toDigitsCore_last (f n : Nat) (ds : List Char) (h : n / 10 = 0) :
    Nat.toDigitsCore 10 (f + 1) n ds = Nat.digitChar (n % 10) :: ds := by
  simp [Nat.toDigitsCore, h]

/-- The decimal rendering of a number with five digits, digit by digit. -/
theorem toString_five_digits (n : Nat) (hlo : 10000 ≤ n) (hhi : n < 100000) :
    toString n = String.mk
      [Nat.digitChar (n / 10000), Nat.digitChar (n / 1000 % 10), Nat.digitChar (n / 100 % 10),
       Nat.digitChar (n / 10 % 10), Nat.digitChar (n % 10)] := by
  have h1 : n / 10 ≠ 0 := by omega
  have h2 : n / 10 / 10 ≠ 0 := by omega
  have h3 : n / 10 / 10 / 10 ≠ 0 := by omega
  have h4 : n / 10 / 10 / 10 / 10 ≠ 0 := by omega
  have h5 : n / 10 / 10 / 10 / 10 / 10 = 0 := by omega
  have e4 : n / 10 / 10 / 10 / 10 % 10 = n / 10000 := by omega
  have e3 : n / 10 / 10 / 10 % 10 = n / 1000 % 10 := by omega
  have e2 : n / 10 / 10 % 10 = n / 100 % 10 := by omega
  have hf : n + 1 = (n - 4) + 1 + 1 + 1 + 1 + 1 := by omega
  show Nat.repr n = _
  unfold Nat.repr Nat.toDigits
  rw [hf, toDigitsCore_more _ _ _ h1, toDigitsCore_more _ _ _ h2, toDigitsCore_more _ _ _ h3,
    toDigitsCore_more _ _ _ h4, toDigitsCore_last _ _ _ h5, e4, e3, e2]
  rfl

theorem digitChar_inj_fin : ∀ a b : Fin 10,
    Nat.digitChar a.val = Nat.digitChar b.val → a = b := by
  decide

theorem digitChar_inj (a b : Nat) (ha : a < 10) (hb : b < 10)
    (h : Nat.digitChar a = Nat.digitChar b) : a = b := by
  have := digitChar_inj_fin ⟨a, ha⟩ ⟨b, hb⟩ h
  exact congrArg Fin.val this

theorem toString_five_digits_inj (n m : Nat) (hn : 10000 ≤ n) (hn2 : n < 100000)
    (hm : 10000 ≤ m) (hm2 : m < 100000) (h : toString n = toString m) : n = m := by
  rw [toString_five_digits n hn hn2, toString_five_digits m hm hm2] at h
  have hd := congrArg String.data h
  simp only [List.cons.injEq, and_true] at hd
  obtain ⟨h4, h3, h2, h1, h0⟩ := hd
  have e4 := digitChar_inj _ _ (by omega) (by omega) h4
  have e3 := digitChar_inj _ _ (by omega) (by omega) h3
  have e2 := digitChar_inj _ _ (by omega) (by omega) h2
  have e1 := digitChar_inj _ _ (by omega) (by omega) h1
  have e0 := digitChar_inj _ _ (by omega) (by omega) h0
  omega

theorem word_space_inj (w1 w2 : Nat) (h1 : w1 < 8) (h2 : w2 < 8) (x y : String)
    (h : words.getD w1 "" ++ " " ++ x = words.getD w2 "" ++ " " ++ y) : w1 = w2 ∧ x = y := by
  have hd := congrArg String.data h
  simp only [String.data_append] at hd
  interval_cases w1 <;> interval_cases w2 <;> simp [words] at hd <;>
    exact ⟨rfl, String.ext hd⟩

/-- Two draws render the same challenge text only if they yield the same word index and the
same number. -/
theorem challengeText_inj (r1 r2 : Rng) :
    challengeText r1 = challengeText r2 ↔
      random 0 8 r1.word = random 0 8 r2.word ∧
      random 10000 99999 r1.number = random 10000 99999 r2.number := by
  constructor
  · intro h
    unfold challengeText at h
    obtain ⟨hw, hx⟩ := word_space_inj _ _ (random_word_lt r1.word) (random_word_lt r2.word) _ _ h
    have b1 := random_number_bounds r1.number
    have b2 := random_number_bounds r2.number
    exact ⟨hw, toString_five_digits_inj _ _ b1.1 (by omega) b2.1 (by omega) hx⟩
  · rintro ⟨hw, hn⟩
    unfold challengeText
    simp only [hw, hn]

/-- C14. Challenge format. For every draw, `updateChallenge` stores exactly the dictionary
word at the drawn index, one space, and the decimal rendering of the drawn number; the
dictionary is the fixed list of 8 words, the index is below 8, the number `n` satisfies
`10000 ≤ n < 99999` and is rendered with exactly 5 digits; and every such index and number
is a possible draw. -/
theorem challenge_format (r : Rng) (s : State) :
    words = ["apple", "banana", "cherry", "dragon", "eagle", "falcon", "grape", "honey"] ∧
    random 0 8 r.word < 8 ∧
    10000 ≤ random 10000 99999 r.number ∧ random 10000 99999 r.number < 99999 ∧
    (updateChallenge r s).currentChallenge =
      words.getD (random 0 8 r.word) "" ++ " " ++ toString (random 10000 99999 r.number) ∧
    words.getD (random 0 8 r.word) "" ∈ words ∧
    (toString (random 10000 99999 r.number)).length = 5 ∧
    (∀ w n, w < 8 → 10000 ≤ n → n < 99999 →
      ∃ r' : Rng, random 0 8 r'.word = w ∧ random 10000 99999 r'.number = n) := by
  have hw := random_word_lt r.word
  have hn := random_number_bounds r.number
  refine ⟨rfl, hw, hn.1, hn.2, rfl, ?_, ?_, ?_⟩
  · generalize random 0 8 r.word = w at hw
    interval_cases w <;> simp [words]
  · rw [toString_five_digits _ hn.1 (by omega)]
    rfl
  · intro w n hw8 hlo hhi
    refine ⟨Rng.mk w (n - 10000), ?_, ?_⟩
    · unfold random
      simp
      omega
    · unfold random
      simp
      omega

/-- Counterexample to C15: the challenge "banana 54231", issued at 0 ms, is still stored at
300,050 ms, after the timeout; the challenge request served then draws word 1 and number
54231 and returns "banana 54231", the expired text. -/
theorem expired_challenge_returned_again :
    (loop (demoEnv "" (Except.ok 0)) (Rng.mk 0 0) (Rng.mk 5 5) none
      (demoState 299950)).currentChallenge = "banana 54231" ∧
    usub (millis (loop (demoEnv "" (Except.ok 0)) (Rng.mk 0 0) (Rng.mk 5 5) none
        (demoState 299950)))
      (loop (demoEnv "" (Except.ok 0)) (Rng.mk 0 0) (Rng.mk 5 5) none
        (demoState 299950)).challengeTime > CHALLENGE_TIMEOUT ∧
    responses (emitted
      (loop (demoEnv "" (Except.ok 0)) (Rng.mk 0 0) (Rng.mk 5 5) none (demoState 299950))
      (handleGetChallenge (Rng.mk 1 44231)
        (loop (demoEnv "" (Except.ok 0)) (Rng.mk 0 0) (Rng.mk 5 5) none
          (demoState 299950)))) = [(200, "banana 54231")] := by
  decide

/-- C15, amended. The challenge request served after the timeout returns the text of a fresh
draw and stores it with `challengeTime` set to the current `millis()`; that text is the
expired challenge again exactly when the draw yields the word index and the number the
expired challenge was made of, and differs from it otherwise. -/
theorem expired_challenge_redraw (r r0 : Rng) (s : State)
    (hc : s.currentChallenge = challengeText r0) :
    responses (emitted s (handleGetChallenge r s)) = [(200, challengeText r)] ∧
    (handleGetChallenge r s).currentChallenge = challengeText r ∧
    (handleGetChallenge r s).challengeTime = millis s ∧
    (challengeText r = s.currentChallenge ↔
      random 0 8 r.word = random 0 8 r0.word ∧
      random 10000 99999 r.number = random 10000 99999 r0.number) := by
  refine ⟨responses_handleGetChallenge r s, ?_, ?_, ?_⟩
  · rw [handleGetChallenge_eq]
  · rw [handleGetChallenge_eq]
  · rw [hc]
    exact challengeText_inj r r0

/-- Witness for C15, amended: the expired "banana 54231" and a draw of word 2, number
10007. -/
theorem expired_challenge_redraw_witness :
    usub (millis (demoState 400000)) (demoState 400000).challengeTime > CHALLENGE_TIMEOUT ∧
    responses (emitted (demoState 400000) (handleGetChallenge (Rng.mk 2 7) (demoState 400000))) =
      [(200, "cherry 10007")] ∧
    challengeText (Rng.mk 2 7) ≠ (demoState 400000).currentChallenge :=
  have h := expired_challenge_redraw (Rng.mk 2 7) (Rng.mk 1 44231) (demoState 400000)
    (by decide)
  ⟨by decide, h.1.trans (by decide), fun e => absurd (h.2.2.2.mp e).1 (by decide)⟩

/-- Counterexample to C16: a request without a signature is answered with status 400 and the
body "Missing signature parameter", which is none of the four listed strings. -/
theorem missing_signature_has_fifth_body :
    responses (checkSignatureTrace (demoEnv "" (Except.ok 0)) (Rng.mk 0 0) ""
      walletAddressLower (demoState 1000)) = [(400, "Missing signature parameter")] ∧
    "Missing signature parameter" ∉ checkSignatureBodies := by
  decide

/-- C16, amended. Every `checkSignature` request gets exactly one response. With a non-empty
`sig` its body is one of "pass", "fail: signature verification failed",
"fail: no access token", "fail: verification error"; with an empty or missing `sig` it is
status 400 with the body "Missing signature parameter". -/
theorem checkSignature_response_bodies (env : Env) (r : Rng) (sig addr : String) (s : State) :
    (sig.length ≠ 0 →
      ∃ code body, responses (checkSignatureTrace env r sig addr s) = [(code, body)] ∧
        body ∈ checkSignatureBodies) ∧
    (sig.length = 0 →
      responses (checkSignatureTrace env r sig addr s) =
        [(400, "Missing signature parameter")]) := by
  refine ⟨?_, fun h => (obs_missing env r sig addr s h).1⟩
  intro hsig
  rcases checkSignature_cases env sig addr s with h | ⟨h, what, hrec⟩ | ⟨h, rec, hrec, hne⟩ |
    ⟨h, rec, hrec, heq, htok⟩ | ⟨h, rec, hrec, heq, htok⟩
  · exact absurd h hsig
  · exact ⟨500, _, (obs_error env r sig addr what s h hrec).1, by decide⟩
  · exact ⟨200, _, (obs_mismatch env r sig addr rec s h hrec hne).1, by decide⟩
  · exact ⟨200, _, (obs_noToken env r sig addr rec s h hrec heq htok).1, by decide⟩
  · exact ⟨200, _, (obs_granted env r sig addr rec s h hrec heq htok).1, by decide⟩

/-- C17. The response leaks only the category. Two runs of `handleCheckSignature` that fall
in the same category (grant, address mismatch, no token, verification error, or missing
signature) send the same status and body, the constant listed for the category, whatever
the signatures, addresses, challenges, recovered addresses, balances and exception texts
were. -/
theorem response_depends_on_category_only (env1 env2 : Env) (r1 r2 : Rng)
    (sig1 sig2 addr1 addr2 : String) (s1 s2 : State)
    (hcat : outcomeCategory env1 sig1 addr1 s1 = outcomeCategory env2 sig2 addr2 s2) :
    responses (checkSignatureTrace env1 r1 sig1 addr1 s1) =
      responses (checkSignatureTrace env2 r2 sig2 addr2 s2) ∧
    responses (checkSignatureTrace env1 r1 sig1 addr1 s1) =
      [categoryResponse (outcomeCategory env1 sig1 addr1 s1)] := by
  refine ⟨?_, responses_eq_category env1 r1 sig1 addr1 s1⟩
  rw [responses_eq_category, responses_eq_category, hcat]

/-- Witness for C17: two requests whose recovery raises with different exception texts, for
different signatures, claimed addresses and stored challenges, get the same response. -/
theorem response_depends_on_category_only_witness :
    responses (checkSignatureTrace (demoEnv "" (Except.ok 0)) (Rng.mk 0 0) "0xmalformed"
      walletAddressLower (demoState 1000)) =
    responses (checkSignatureTrace
      (Env.mk DOOR_CONTRACT_default
        (fun _ _ => Except.error "secp256k1: bad recovery id at frame 0x3ffb21c0")
        (fun _ _ => Except.ok 7))
      (Rng.mk 3 3) "0xdeadbeef" strangerAddress
      { demoState 5000 with currentChallenge := "honey 31337" }) :=
  (response_depends_on_category_only (demoEnv "" (Except.ok 0))
    (Env.mk DOOR_CONTRACT_default
      (fun _ _ => Except.error "secp256k1: bad recovery id at frame 0x3ffb21c0")
      (fun _ _ => Except.ok 7))
    (Rng.mk 0 0) (Rng.mk 3 3) "0xmalformed" "0xdeadbeef" walletAddressLower strangerAddress
    (demoState 1000) { demoState 5000 with currentChallenge := "honey 31337" }
    (by decide)).1

theorem pulseScan_append (p : Phase) (a b : List Event) :
    pulseScan p (a ++ b) = (pulseScan p a).bind (fun q => pulseScan q b) := by
  induction a generalizing p with
  | nil => simp [pulseScan]
  | cons e es ih =>
    simp only [List.cons_append, pulseScan]
    cases pulseStep p e with
    | none => rfl
    | some q => exact ih q

theorem pulseScan_idle_of_not_mem (l : List Event) (h : relayHigh ∉ l) :
    pulseScan Phase.idle l = some Phase.idle := by
  induction l with
  | nil => rfl
  | cons e es ih =>
    have he : ¬ e = relayHigh := fun h' => h (h' ▸ List.mem_cons_self _ _)
    have hes : relayHigh ∉ es := fun h' => h (List.mem_cons_of_mem _ h')
    simp [pulseScan, pulseStep, he, ih hes]

theorem pulseScan_idle_of_hardware_nil (l : List Event) (h : hardware l = []) :
    pulseScan Phase.idle l = some Phase.idle := by
  apply pulseScan_idle_of_not_mem
  rw [relayHigh_mem_hardware, h]
  simp

theorem pulseScan_idle_append (a b : List Event) (ha : pulseScan Phase.idle a = some Phase.idle) :
    pulseScan Phase.idle (a ++ b) = pulseScan Phase.idle b := by
  rw [pulseScan_append, ha]
  rfl

theorem pulseScan_grantLog (addr : String) :
    pulseScan Phase.idle (grantLog addr) = some Phase.idle := by
  simp [grantLog, grantSignal, relayPulse, pulseScan, pulseStep, relayHigh, relayLow]

/-- A trace the scanner accepts has every HIGH write followed by the hold and the LOW
write. -/
theorem pulseScan_sound (l : List Event) :
    ∀ p, pulseScan p l = some Phase.idle →
      match p with
      | Phase.idle => PulsesWellFormed l
      | Phase.raised => ∃ rest, l = Event.delay 5000 :: relayLow :: rest ∧ PulsesWellFormed rest
      | Phase.held => ∃ rest, l = relayLow :: rest ∧ PulsesWellFormed rest := by
  induction l with
  | nil =>
    intro p h
    cases p with
    | idle => intro i hi; simp at hi
    | raised => simp [pulseScan] at h
    | held => simp [pulseScan] at h
  | cons e es ih =>
    intro p h
    cases p with
    | idle =>
      by_cases he : e = relayHigh
      · subst he
        have h2 : pulseScan Phase.raised es = some Phase.idle := by
          simpa [pulseScan, pulseStep] using h
        obtain ⟨rest, hrest, hwf⟩ := ih Phase.raised h2
        subst hrest
        intro i hi
        match i with
        | 0 => simp
        | 1 => simp [relayHigh] at hi
        | 2 => simp [relayHigh, relayLow] at hi
        | j + 3 =>
          have hj : rest[j]? = some relayHigh := by simpa using hi
          have := hwf j hj
          simpa using this
      · have h2 : pulseScan Phase.idle es = some Phase.idle := by
          simpa [pulseScan, pulseStep, he] using h
        have hwf := ih Phase.idle h2
        intro i hi
        match i with
        | 0 => simp at hi; exact absurd hi he
        | j + 1 =>
          have hj : es[j]? = some relayHigh := by simpa using hi
          have := hwf j hj
          simpa using this
    | raised =>
      by_cases he : e = Event.delay 5000
      · subst he
        have h2 : pulseScan Phase.held es = some Phase.idle := by
          simpa [pulseScan, pulseStep] using h
        obtain ⟨rest, hrest, hwf⟩ := ih Phase.held h2
        exact ⟨rest, by rw [hrest], hwf⟩
      · simp [pulseScan, pulseStep, he] at h
    | held =>
      by_cases he : e = relayLow
      · subst he
        have h2 : pulseScan Phase.idle es = some Phase.idle := by
          simpa [pulseScan, pulseStep] using h
        exact ⟨es, rfl, ih Phase.idle h2⟩
      · simp [pulseScan, pulseStep, he] at h

theorem pulseSafe_refl (s : State) : PulseSafe s s :=
  ⟨[], by simp, rfl, fun h => h⟩

theorem pulseSafe_trans (s t u : State) (h1 : PulseSafe s t) (h2 : PulseSafe t u) :
    PulseSafe s u := by
  obtain ⟨l1, ho1, hp1, hr1⟩ := h1
  obtain ⟨l2, ho2, hp2, hr2⟩ := h2
  refine ⟨l1 ++ l2, ?_, ?_, fun h => hr2 (hr1 h)⟩
  · rw [ho2, ho1, List.append_assoc]
  · rw [pulseScan_idle_append l1 l2 hp1, hp2]

theorem pulseSafe_emitted_scan (s t : State) (h : PulseSafe s t) :
    pulseScan Phase.idle (emitted s t) = some Phase.idle := by
  obtain ⟨l, ho, hp, _⟩ := h
  rw [emitted_of_out s t l ho]
  exact hp

theorem pulseSafe_handleRoot (s : State) : PulseSafe s (handleRoot s) :=
  ⟨[Event.send 200 "text/html" generateDAppHTML], rfl,
    by simp [pulseScan, pulseStep, relayHigh], fun h => h⟩

theorem pulseSafe_handleStatus (s : State) : PulseSafe s (handleStatus s) :=
  ⟨_, rfl, by simp [pulseScan, pulseStep, relayHigh], fun h => h⟩

theorem pulseSafe_updateChallenge (r : Rng) (s : State) : PulseSafe s (updateChallenge r s) :=
  ⟨[Event.print "New challenge: ", Event.println (challengeText r)],
    by simp [updateChallenge, Serial_print, Serial_println, emit],
    by simp [pulseScan, pulseStep, relayHigh], fun h => h⟩

theorem pulseSafe_delay (ms : Nat) (s : State) : PulseSafe s (delay ms s) :=
  ⟨[Event.delay ms], rfl, by simp [pulseScan, pulseStep, relayHigh], fun h => h⟩

theorem pulseSafe_handleGetChallenge (r : Rng) (s : State) :
    PulseSafe s (handleGetChallenge r s) := by
  rw [handleGetChallenge_eq]
  exact ⟨_, rfl, by simp [pulseScan, pulseStep, relayHigh], fun h => h⟩

theorem pulseSafe_handleCheckSignature (env : Env) (r : Rng) (sig addr : String) (s : State) :
    PulseSafe s (handleCheckSignature env r sig addr s) := by
  rcases checkSignature_cases env sig addr s with h | ⟨h, what, hrec⟩ | ⟨h, rec, hrec, hne⟩ |
    ⟨h, rec, hrec, heq, htok⟩ | ⟨h, rec, hrec, heq, htok⟩
  · rw [handleCheckSignature_missing env r sig addr s h]
    exact ⟨_, rfl, by simp [pulseScan, pulseStep, relayHigh], fun h => h⟩
  · rw [handleCheckSignature_error env r sig addr what s h hrec]
    exact ⟨_, rfl, by simp [requestLog, pulseScan, pulseStep, relayHigh], fun h => h⟩
  · rw [handleCheckSignature_mismatch env r sig addr rec s h hrec hne]
    refine ⟨_, rfl, ?_, fun h => h⟩
    apply pulseScan_idle_of_not_mem
    rw [relayHigh_mem_hardware, ← trace_mismatch env r sig addr rec s h hrec hne,
      (obs_mismatch env r sig addr rec s h hrec hne).2]
    exact relayHigh_not_mem_denySignal
  · rw [handleCheckSignature_noToken env r sig addr rec s h hrec heq htok]
    refine ⟨_, rfl, ?_, fun h => h⟩
    apply pulseScan_idle_of_not_mem
    rw [relayHigh_mem_hardware, ← trace_noToken env r sig addr rec s h hrec heq htok,
      (obs_noToken env r sig addr rec s h hrec heq htok).2]
    exact relayHigh_not_mem_denySignal
  · rw [handleCheckSignature_granted env r sig addr rec s h hrec heq htok]
    refine ⟨_, rfl, ?_, fun _ => rfl⟩
    have hpre : pulseScan Phase.idle
        (requestLog sig addr s.currentChallenge ++
          [Event.print "Recovered address: ", Event.println rec,
           Event.println "Address verification passed"] ++ tokenLog env rec ++
          [Event.send 200 "text/plain" "pass"]) = some Phase.idle := by
      apply pulseScan_idle_of_hardware_nil
      simp [hardware_append, hardware_tokenLog, requestLog, hardware]
    rw [pulseScan_idle_append _ _ (by
      rw [pulseScan_idle_append _ _ hpre]
      exact pulseScan_grantLog addr)]
    simp [pulseScan, pulseStep, relayHigh]

theorem pulseSafe_handleClient (env : Env) (r : Rng) (req : Option Request) (s : State) :
    PulseSafe s (handleClient env r req s) := by
  unfold handleClient
  split
  · exact pulseSafe_refl s
  · exact pulseSafe_handleRoot s
  · exact pulseSafe_handleGetChallenge r s
  · exact pulseSafe_handleCheckSignature env r _ _ s
  · exact pulseSafe_handleStatus s

theorem pulseSafe_loop (env : Env) (rReq rLoop : Rng) (req : Option Request) (s : State) :
    PulseSafe s (loop env rReq rLoop req s) := by
  unfold loop
  refine pulseSafe_trans _ _ _ (pulseSafe_handleClient env rReq req s) ?_
  refine pulseSafe_trans _ _ _ ?_ (pulseSafe_delay 100 _)
  split
  · exact pulseSafe_updateChallenge rLoop _
  · exact pulseSafe_refl _

theorem pulseSafe_run (env : Env) (ticks : List Tick) (s : State) :
    PulseSafe s (run env ticks s) := by
  induction ticks generalizing s with
  | nil => exact pulseSafe_refl s
  | cons k ks ih =>
    exact pulseSafe_trans _ _ _ (pulseSafe_loop env k.rReq k.rLoop k.req s) (ih _)

/-- C18. Relay pulses are well formed and never interleave. In the trace of any run of the
loop over any sequence of requests, started with the relay LOW, every write of HIGH to the
relay is followed at once by `delay(5000)` and then by the write of LOW; the relay is LOW
after every iteration, so LOW when a handler starts, and LOW when the handler returns. -/
theorem relay_pulses_well_formed (env : Env) (ticks : List Tick) (s : State)
    (hlow : s.relay = Level.LOW) :
    PulsesWellFormed (emitted s (run env ticks s)) ∧
    (run env ticks s).relay = Level.LOW ∧
    (∀ r req, (handleClient env r req (run env ticks s)).relay = Level.LOW) ∧
    (∀ r req, PulsesWellFormed
      (emitted (run env ticks s) (handleClient env r req (run env ticks s)))) := by
  have hrun := pulseSafe_run env ticks s
  have hlow2 : (run env ticks s).relay = Level.LOW := by
    obtain ⟨_, _, _, hr⟩ := hrun
    exact hr hlow
  refine ⟨pulseScan_sound _ Phase.idle (pulseSafe_emitted_scan _ _ hrun), hlow2, ?_, ?_⟩
  · intro r req
    obtain ⟨_, _, _, hr⟩ := pulseSafe_handleClient env r req (run env ticks s)
    exact hr hlow2
  · intro r req
    exact pulseScan_sound _ Phase.idle
      (pulseSafe_emitted_scan _ _ (pulseSafe_handleClient env r req (run env ticks s)))

/-- Witness for C18: a run of three iterations from the locked resting state: a granted
signature check, a status request, a challenge request. The trace holds a relay pulse. -/
theorem relay_pulses_well_formed_witness :
    relayHigh ∈ emitted (demoState 1000)
      (run (demoEnv "" (Except.ok 0))
        [Tick.mk (some (Request.checkSignature "0xsigned" walletAddressLower)) (Rng.mk 2 7)
           (Rng.mk 0 0),
         Tick.mk (some Request.status) (Rng.mk 0 0) (Rng.mk 0 0),
         Tick.mk (some Request.getChallenge) (Rng.mk 4 9) (Rng.mk 0 0)]
        (demoState 1000)) ∧
    PulsesWellFormed (emitted (demoState 1000)
      (run (demoEnv "" (Except.ok 0))
        [Tick.mk (some (Request.checkSignature "0xsigned" walletAddressLower)) (Rng.mk 2 7)
           (Rng.mk 0 0),
         Tick.mk (some Request.status) (Rng.mk 0 0) (Rng.mk 0 0),
         Tick.mk (some Request.getChallenge) (Rng.mk 4 9) (Rng.mk 0 0)]
        (demoState 1000))) :=
  ⟨by decide,
   (relay_pulses_well_formed (demoEnv "" (Except.ok 0))
      [Tick.mk (some (Request.checkSignature "0xsigned" walletAddressLower)) (Rng.mk 2 7)
         (Rng.mk 0 0),
       Tick.mk (some Request.status) (Rng.mk 0 0) (Rng.mk 0 0),
       Tick.mk (some Request.getChallenge) (Rng.mk 4 9) (Rng.mk 0 0)]
      (demoState 1000) rfl).1⟩

theorem signalAccess_true_eq (s : State) :
    signalAccess true s =
      { s with
        clock := s.clock + 800, led := Level.HIGH, buzzer := Level.LOW,
        out := s.out ++ grantSignal } := by
  simp [signalAccess, digitalWrite, delay, emit, Nat.iterate, grantSignal]

theorem signalAccess_false_eq (s : State) :
    signalAccess false s =
      { s with
        clock := s.clock + 1000, led := Level.HIGH, buzzer := Level.LOW,
        out := s.out ++ denySignal } := by
  simp [signalAccess, digitalWrite, delay, emit, Nat.iterate, denySignal]

/-- C19. Signal patterns are fixed. `signalAccess(true)` emits exactly two pulses, buzzer and
LED HIGH for 200 ms then both LOW for 200 ms, and a final LED HIGH; `signalAccess(false)`
raises the buzzer, emits exactly five LED pulses of 100 ms HIGH and 100 ms LOW, and only then
lowers the buzzer, followed by a final LED HIGH. Either call returns with the buzzer LOW and
the LED HIGH, and neither writes the relay pin. -/
theorem signal_patterns_fixed (s : State) :
    emitted s (signalAccess true s) =
      [Event.digitalWrite Pin.BUZZER_PIN Level.HIGH,
       Event.digitalWrite Pin.STATUS_LED_PIN Level.HIGH, Event.delay 200,
       Event.digitalWrite Pin.BUZZER_PIN Level.LOW,
       Event.digitalWrite Pin.STATUS_LED_PIN Level.LOW, Event.delay 200,
       Event.digitalWrite Pin.BUZZER_PIN Level.HIGH,
       Event.digitalWrite Pin.STATUS_LED_PIN Level.HIGH, Event.delay 200,
       Event.digitalWrite Pin.BUZZER_PIN Level.LOW,
       Event.digitalWrite Pin.STATUS_LED_PIN Level.LOW, Event.delay 200,
       Event.digitalWrite Pin.STATUS_LED_PIN Level.HIGH] ∧
    emitted s (signalAccess false s) =
      [Event.digitalWrite Pin.BUZZER_PIN Level.HIGH,
       Event.digitalWrite Pin.STATUS_LED_PIN Level.HIGH, Event.delay 100,
       Event.digitalWrite Pin.STATUS_LED_PIN Level.LOW, Event.delay 100,
       Event.digitalWrite Pin.STATUS_LED_PIN Level.HIGH, Event.delay 100,
       Event.digitalWrite Pin.STATUS_LED_PIN Level.LOW, Event.delay 100,
       Event.digitalWrite Pin.STATUS_LED_PIN Level.HIGH, Event.delay 100,
       Event.digitalWrite Pin.STATUS_LED_PIN Level.LOW, Event.delay 100,
       Event.digitalWrite Pin.STATUS_LED_PIN Level.HIGH, Event.delay 100,
       Event.digitalWrite Pin.STATUS_LED_PIN Level.LOW, Event.delay 100,
       Event.digitalWrite Pin.STATUS_LED_PIN Level.HIGH, Event.delay 100,
       Event.digitalWrite Pin.STATUS_LED_PIN Level.LOW, Event.delay 100,
       Event.digitalWrite Pin.BUZZER_PIN Level.LOW,
       Event.digitalWrite Pin.STATUS_LED_PIN Level.HIGH] ∧
    emitted s (signalAccess true s) = grantSignal ∧
    emitted s (signalAccess false s) = denySignal ∧
    (∀ granted, (signalAccess granted s).buzzer = Level.LOW ∧
      (signalAccess granted s).led = Level.HIGH ∧
      (signalAccess granted s).relay = s.relay ∧
      ∀ v, Event.digitalWrite Pin.DOOR_RELAY_PIN v ∉ emitted s (signalAccess granted s)) := by
  have ht : emitted s (signalAccess true s) = grantSignal := by
    rw [signalAccess_true_eq]
    exact emitted_of_out _ _ _ rfl
  have hf : emitted s (signalAccess false s) = denySignal := by
    rw [signalAccess_false_eq]
    exact emitted_of_out _ _ _ rfl
  refine ⟨ht.trans (by decide), hf.trans (by decide), ht, hf, ?_⟩
  intro granted
  cases granted with
  | true =>
    rw [ht]
    rw [signalAccess_true_eq]
    exact ⟨rfl, rfl, rfl, fun v => by cases v <;> decide⟩
  | false =>
    rw [hf]
    rw [signalAccess_false_eq]
    exact ⟨rfl, rfl, rfl, fun v => by cases v <;> decide⟩

theorem usub_timeout (e : Nat) (h : e ≤ 300000) : usub CHALLENGE_TIMEOUT e = 300000 - e := by
  unfold usub CHALLENGE_TIMEOUT ULONG
  norm_num
  omega

/-- C20. The status operation. While the elapsed time `e = millis() - challengeTime` (in
`unsigned long` arithmetic) is at most 300,000 ms, `handleStatus` answers with the lock state,
"LOCKED" for a LOW relay and "OPEN" for a HIGH one, and with `(300000 - e) / 1000` rounded
down as the seconds left, a number between 0 and 300. -/
theorem status_reports_lock_and_seconds (s : State)
    (he : usub (millis s) s.challengeTime ≤ CHALLENGE_TIMEOUT) :
    (s.relay = Level.LOW →
      responses (emitted s (handleStatus s)) =
        [(200, "🔐 Door Status: " ++ "LOCKED" ++ "<br>Challenge expires in: " ++
          toString ((300000 - usub (millis s) s.challengeTime) / 1000) ++ " seconds")]) ∧
    (s.relay = Level.HIGH →
      responses (emitted s (handleStatus s)) =
        [(200, "🔐 Door Status: " ++ "OPEN" ++ "<br>Challenge expires in: " ++
          toString ((300000 - usub (millis s) s.challengeTime) / 1000) ++ " seconds")]) ∧
    (300000 - usub (millis s) s.challengeTime) / 1000 ≤ 300 := by
  have hu := usub_timeout _ he
  refine ⟨?_, ?_, by omega⟩
  · intro hr
    rw [emitted_of_out s (handleStatus s) _ rfl]
    simp [responses, digitalRead, hr, hu]
  · intro hr
    rw [emitted_of_out s (handleStatus s) _ rfl]
    simp [responses, digitalRead, hr, hu]

/-- Witness for C20: the locked resting state, 1,000 ms after the challenge was issued. -/
theorem status_reports_lock_and_seconds_witness :
    responses (emitted (demoState 1000) (handleStatus (demoState 1000))) =
      [(200, "🔐 Door Status: LOCKED<br>Challenge expires in: 299 seconds")] :=
  ((status_reports_lock_and_seconds (demoState 1000) (by decide)).1 rfl).trans (by decide)

theorem loop_idle_eq (env : Env) (rReq rLoop : Rng) (s : State) :
    loop env rReq rLoop none s =
      if usub (millis s) s.challengeTime > CHALLENGE_TIMEOUT then
        { s with
          currentChallenge := challengeText rLoop,
          challengeTime := millis s,
          clock := s.clock + 100,
          out := s.out ++
            [Event.print "New challenge: ", Event.println (challengeText rLoop),
             Event.delay 100] }
      else
        { s with clock := s.clock + 100, out := s.out ++ [Event.delay 100] } := by
  by_cases h : usub (millis s) s.challengeTime > CHALLENGE_TIMEOUT
  · rw [if_pos h]
    simp only [loop, handleClient, if_pos h]
    simp [updateChallenge, millis, delay, emit, Serial_print, Serial_println]
  · rw [if_neg h]
    simp only [loop, handleClient, if_neg h]
    simp [delay, emit]

/-- C22. The expiry check of the control loop. In an iteration with no pending request the
challenge is rotated (fresh text, `challengeTime` set to `millis()`) when
`millis() - challengeTime`, in `unsigned long` arithmetic, is strictly greater than 300,000,
and text and `challengeTime` are left as they were when it is at most 300,000; so the log
line "New challenge: " appears iff the difference exceeds 300,000. In an iteration with a
request the same check runs on the state the handler left. -/
theorem expiry_check_is_strict (env : Env) (rReq rLoop : Rng) (s : State) :
    (usub (millis s) s.challengeTime > 300000 →
      (loop env rReq rLoop none s).currentChallenge = challengeText rLoop ∧
      (loop env rReq rLoop none s).challengeTime = millis s ∧
      emitted s (loop env rReq rLoop none s) =
        [Event.print "New challenge: ", Event.println (challengeText rLoop),
         Event.delay 100]) ∧
    (usub (millis s) s.challengeTime ≤ 300000 →
      (loop env rReq rLoop none s).currentChallenge = s.currentChallenge ∧
      (loop env rReq rLoop none s).challengeTime = s.challengeTime ∧
      emitted s (loop env rReq rLoop none s) = [Event.delay 100]) ∧
    (Event.print "New challenge: " ∈ emitted s (loop env rReq rLoop none s) ↔
      usub (millis s) s.challengeTime > 300000) ∧
    (∀ req, loop env rReq rLoop req s =
      loop env rReq rLoop none (handleClient env rReq req s)) := by
  have hrot : usub (millis s) s.challengeTime > 300000 →
      (loop env rReq rLoop none s).currentChallenge = challengeText rLoop ∧
      (loop env rReq rLoop none s).challengeTime = millis s ∧
      emitted s (loop env rReq rLoop none s) =
        [Event.print "New challenge: ", Event.println (challengeText rLoop),
         Event.delay 100] := by
    intro h
    have hc : usub (millis s) s.challengeTime > CHALLENGE_TIMEOUT := h
    rw [loop_idle_eq, if_pos hc]
    exact ⟨rfl, rfl, emitted_of_out _ _ _ rfl⟩
  have hkeep : usub (millis s) s.challengeTime ≤ 300000 →
      (loop env rReq rLoop none s).currentChallenge = s.currentChallenge ∧
      (loop env rReq rLoop none s).challengeTime = s.challengeTime ∧
      emitted s (loop env rReq rLoop none s) = [Event.delay 100] := by
    intro h
    have hc : ¬ usub (millis s) s.challengeTime > CHALLENGE_TIMEOUT := Nat.not_lt.mpr h
    rw [loop_idle_eq, if_neg hc]
    exact ⟨rfl, rfl, emitted_of_out _ _ _ rfl⟩
  refine ⟨hrot, hkeep, ?_, fun req => rfl⟩
  by_cases h : usub (millis s) s.challengeTime > 300000
  · rw [(hrot h).2.2]
    simp [h]
  · rw [(hkeep (Nat.not_lt.mp h)).2.2]
    simp [h]

/-- Witness for C22: a challenge exactly 300,000 ms old is kept, one 300,001 ms old is
rotated. -/
theorem expiry_check_is_strict_witness :
    usub (millis (demoState 300000)) (demoState 300000).challengeTime = 300000 ∧
    (loop (demoEnv "" (Except.ok 0)) (Rng.mk 0 0) (Rng.mk 2 7) none
      (demoState 300000)).currentChallenge = "banana 54231" ∧
    (loop (demoEnv "" (Except.ok 0)) (Rng.mk 0 0) (Rng.mk 2 7) none
      (demoState 300001)).currentChallenge = "cherry 10007" :=
  ⟨by decide,
   ((expiry_check_is_strict (demoEnv "" (Except.ok 0)) (Rng.mk 0 0) (Rng.mk 2 7)
      (demoState 300000)).2.1 (by decide)).1,
   ((expiry_check_is_strict (demoEnv "" (Except.ok 0)) (Rng.mk 0 0) (Rng.mk 2 7)
      (demoState 300001)).1 (by decide)).1.trans (by decide)⟩

/-- C23. The shipped placeholder does not select open mode. `checkAccessToken` takes the
allow-all branch (the warning line and nothing else) iff `DOOR_CONTRACT` has fewer than 10
characters; the shipped value has 42, so with it the first thing `checkAccessToken` does is
the `balanceOf` query against that zero address, and it returns true only if the query
returns a balance greater than 0. -/
theorem placeholder_contract_is_not_open_mode :
    (∀ (env : Env) (user : String) (s : State),
      emitted s (checkAccessToken env user s).2 =
        [Event.println "Warning: No door contract configured, allowing access"] ↔
      env.DOOR_CONTRACT.length < 10) ∧
    DOOR_CONTRACT_default.length = 42 ∧
    (∀ (env : Env) (user : String) (s : State), env.DOOR_CONTRACT = DOOR_CONTRACT_default →
      (emitted s (checkAccessToken env user s).2).head? =
        some (Event.viewCall DOOR_CONTRACT_default user) ∧
      ((checkAccessToken env user s).1 = true ↔
        ∃ b, env.balanceOf DOOR_CONTRACT_default user = Except.ok b ∧ b > 0)) := by
  refine ⟨?_, by decide, ?_⟩
  · intro env user s
    rw [checkAccessToken_snd, emitted_of_out _ _ _ rfl]
    by_cases h : env.DOOR_CONTRACT.length < 10
    · simp [tokenLog_open env user h, h]
    · cases hb : env.balanceOf env.DOOR_CONTRACT user with
      | ok b => simp [tokenLog_balance env user b (Nat.not_lt.mp h) hb, h]
      | error what => simp [tokenLog_error env user what (Nat.not_lt.mp h) hb, h]
  · intro env user s hdef
    have hlen : 10 ≤ env.DOOR_CONTRACT.length := by rw [hdef]; decide
    have hnot : ¬ DOOR_CONTRACT_default.length < 10 := by decide
    rw [checkAccessToken_snd, emitted_of_out _ _ _ rfl]
    cases hb : env.balanceOf env.DOOR_CONTRACT user with
    | ok b =>
      rw [tokenLog_balance env user b hlen hb]
      rw [hdef] at hb
      simp [checkAccessToken, hnot, hdef, hb]
    | error what =>
      rw [tokenLog_error env user what hlen hb]
      rw [hdef] at hb
      simp [checkAccessToken, hnot, hdef, hb]

/-- C24, the code at the failing input. In the `store(uint256)` flows of `main.cpp` and
`contract_interaction.cpp` and in `transferTokens` and `approveTokens` the literal
`20000000000ULL` is stored in a `uint32_t`, so the gas price handed to `SendTransaction` is
`20000000000 mod 2^32 = 2820130816` wei, not 20 Gwei; `sendEthTransaction`, which declares
the variable `unsigned long long`, hands over the full 20,000,000,000. -/
theorem gas_price_wraps_in_uint32 (transactionCount : Nat) :
    (testSmartContractInteraction transactionCount).gasPriceVal = 2820130816 ∧
    (testSimpleStorageContract transactionCount).gasPriceVal = 2820130816 ∧
    (transferTokens transactionCount).gasPriceVal = 2820130816 ∧
    (approveTokens transactionCount).gasPriceVal = 2820130816 ∧
    (testSmartContractInteraction transactionCount).gasPriceVal ≠ 20000000000 ∧
    20000000000 = 4 * 2 ^ 32 + 2820130816 ∧
    (sendEthTransaction transactionCount).gasPriceVal = 20000000000 := by
  refine ⟨?_, ?_, ?_, ?_, ?_, by norm_num, ?_⟩ <;>
    simp [testSmartContractInteraction, testSimpleStorageContract, transferTokens,
      approveTokens, sendEthTransaction, toUint32, toUint64]

theorem usub_underflow (e : Nat) (hlo : 300000 < e) (hhi : e < ULONG) :
    usub CHALLENGE_TIMEOUT e = 2 ^ 32 + 300000 - e := by
  unfold usub CHALLENGE_TIMEOUT
  unfold ULONG at hhi ⊢
  norm_num at hhi ⊢
  omega

theorem usub_lt (a b : Nat) : usub a b < ULONG := by
  unfold usub
  exact Nat.mod_lt _ (by unfold ULONG; norm_num)

/-- C25. Status underflow. `handleStatus` has no guard on the subtraction: whenever the
elapsed time `e = millis() - challengeTime` (in `unsigned long` arithmetic) exceeds 300,000,
the number it reports is `((2^32 + 300000 - e) mod 2^32) / 1000`, which is at least 300, never
0, and at least 4,000,000 while the overshoot is at most 294,967,296 ms. Such a state is
reached: a challenge exactly 300,000 ms old survives the expiry check of an idle iteration,
and the status request served by the next iteration, 100 ms later, is answered with
4,294,967 seconds. -/
theorem status_underflows_after_timeout :
    (∀ s : State, usub (millis s) s.challengeTime > CHALLENGE_TIMEOUT →
      responses (emitted s (handleStatus s)) =
        [(200, "🔐 Door Status: " ++ (if s.relay = Level.HIGH then "OPEN" else "LOCKED") ++
          "<br>Challenge expires in: " ++
          toString ((2 ^ 32 + 300000 - usub (millis s) s.challengeTime) % 2 ^ 32 / 1000) ++
          " seconds")] ∧
      300 ≤ (2 ^ 32 + 300000 - usub (millis s) s.challengeTime) % 2 ^ 32 / 1000 ∧
      (usub (millis s) s.challengeTime ≤ 300000 + 294967296 →
        4000000 ≤ (2 ^ 32 + 300000 - usub (millis s) s.challengeTime) % 2 ^ 32 / 1000)) ∧
    (usub (millis (demoState 300000)) (demoState 300000).challengeTime ≤ CHALLENGE_TIMEOUT ∧
      (loop (demoEnv "" (Except.ok 0)) (Rng.mk 0 0) (Rng.mk 2 7) none
        (demoState 300000)).currentChallenge = "banana 54231" ∧
      usub (millis (loop (demoEnv "" (Except.ok 0)) (Rng.mk 0 0) (Rng.mk 2 7) none
          (demoState 300000)))
        (loop (demoEnv "" (Except.ok 0)) (Rng.mk 0 0) (Rng.mk 2 7) none
          (demoState 300000)).challengeTime > CHALLENGE_TIMEOUT ∧
      responses (emitted
        (loop (demoEnv "" (Except.ok 0)) (Rng.mk 0 0) (Rng.mk 2 7) none (demoState 300000))
        (loop (demoEnv "" (Except.ok 0)) (Rng.mk 0 0) (Rng.mk 2 7) (some Request.status)
          (loop (demoEnv "" (Except.ok 0)) (Rng.mk 0 0) (Rng.mk 2 7) none
            (demoState 300000)))) =
        [(200, "🔐 Door Status: LOCKED<br>Challenge expires in: 4294967 seconds")]) := by
  refine ⟨?_, by decide⟩
  intro s he
  have hlt := usub_lt (millis s) s.challengeTime
  have he2 : 300000 < usub (millis s) s.challengeTime := he
  have hu := usub_underflow _ he2 hlt
  have hmod : (2 ^ 32 + 300000 - usub (millis s) s.challengeTime) % 2 ^ 32 =
      2 ^ 32 + 300000 - usub (millis s) s.challengeTime := by
    unfold ULONG at hlt
    norm_num at hlt ⊢
    omega
  refine ⟨?_, ?_, ?_⟩
  · rw [emitted_of_out s (handleStatus s) _ rfl, hmod]
    simp [responses, digitalRead, hu]
  · rw [hmod]
    unfold ULONG at hlt
    norm_num at hlt ⊢
    omega
  · intro hsmall
    rw [hmod]
    norm_num
    omega

/-- C26. The expiry computation across rollover of the millisecond clock. For an issue time
`t = challengeTime` below `2^32` and a true elapsed time `d` below `2^32`, with
`millis() = (t + d) mod 2^32` the `unsigned long` difference `millis() - challengeTime` is
`d`; so the loop's test holds, and the idle iteration rotates the challenge, iff
`d > 300000`, also when `millis()` has wrapped past zero. -/
theorem expiry_correct_across_rollover (env : Env) (rReq rLoop : Rng) (s : State) (d : Nat)
    (ht : s.challengeTime < ULONG) (hd : d < ULONG)
    (hnow : millis s = (s.challengeTime + d) % ULONG) :
    usub (millis s) s.challengeTime = d ∧
    (usub (millis s) s.challengeTime > CHALLENGE_TIMEOUT ↔ d > 300000) ∧
    (Event.print "New challenge: " ∈ emitted s (loop env rReq rLoop none s) ↔ d > 300000) ∧
    (loop env rReq rLoop none s).challengeTime =
      (if d > 300000 then millis s else s.challengeTime) := by
  have hu : usub (millis s) s.challengeTime = d := by
    rw [hnow]
    unfold usub
    unfold ULONG at ht hd ⊢
    norm_num at ht hd ⊢
    omega
  have hiff : usub (millis s) s.challengeTime > CHALLENGE_TIMEOUT ↔ d > 300000 := by
    rw [hu]
    rfl
  refine ⟨hu, hiff, ?_, ?_⟩
  · rw [loop_idle_eq]
    by_cases h : d > 300000
    · rw [if_pos (hiff.mpr h), emitted_of_out _ _ _ rfl]
      simp [h]
    · rw [if_neg (fun h' => h (hiff.mp h')), emitted_of_out _ _ _ rfl]
      simp [h]
  · rw [loop_idle_eq]
    by_cases h : d > 300000
    · rw [if_pos (hiff.mpr h), if_pos h]
    · rw [if_neg (fun h' => h (hiff.mp h')), if_neg h]

/-- Witness for C26: the challenge was issued 1,000 ms before the clock wrapped and 300,500 ms
have passed, so `millis()` reads 299,500, less than `challengeTime`; the difference is
300,500 and the idle iteration rotates the challenge. -/
theorem expiry_correct_across_rollover_witness :
    millis { demoState (2 ^ 32 + 299500) with challengeTime := 2 ^ 32 - 1000 } = 299500 ∧
    usub (millis { demoState (2 ^ 32 + 299500) with challengeTime := 2 ^ 32 - 1000 })
      (2 ^ 32 - 1000) = 300500 ∧
    (loop (demoEnv "" (Except.ok 0)) (Rng.mk 0 0) (Rng.mk 2 7) none
      { demoState (2 ^ 32 + 299500) with challengeTime := 2 ^ 32 - 1000 }).challengeTime =
      299500 :=
  have h := expiry_correct_across_rollover (demoEnv "" (Except.ok 0)) (Rng.mk 0 0) (Rng.mk 2 7)
    { demoState (2 ^ 32 + 299500) with challengeTime := 2 ^ 32 - 1000 } 300500
    (by decide) (by decide) (by decide)
  ⟨by decide, h.1, h.2.2.2.trans (by decide)⟩

end BlockchainDoor
